import Mathlib

/-!
Verification development for `vulkano.h`, a single-header Vulkan bootstrap and
resource-lifecycle layer.

The driver API (`vk*` entry points) is external to the repository, so driver
behaviour is modelled explicitly: every embedded operation threads a state that
records the sequence of driver calls it makes (`DriverCall` trace), and the
result the driver returns for each fallible call is injected through an
environment record.  Machine integers become `Nat` (bit masks use `&&&`; the
`uint32_t` quantities involved never approach overflow in the modelled code
paths: Vulkan caps `memoryTypeCount` at 32 and buffer sizes are caller-chosen).
`char message[128]` diagnostic text in `struct vulkano_error` is not modelled;
only the `code` and `result` fields are observable to the propagation logic.
-/

/-- The subset of `VkResult` values the embedded code inspects. -/
inductive VkResult where
  | VK_SUCCESS
  | VK_NOT_READY
  | VK_TIMEOUT
  | VK_ERROR_OUT_OF_HOST_MEMORY
  | VK_ERROR_OUT_OF_DEVICE_MEMORY
  | VK_ERROR_DEVICE_LOST
  | VK_ERROR_UNKNOWN
  | VK_ERROR_OUT_OF_DATE_KHR
  | VK_SUBOPTIMAL_KHR
  deriving DecidableEq, Repr

/-- Embedding of `enum vulkano_error_code` (src/vulkano.h:221-241), member for member. -/
inductive vulkano_error_code where
  | VULKANO_ERROR_CODE_OK
  | VULKANO_ERROR_CODE_BAD_CONFIGURATION
  | VULKANO_ERROR_CODE_OUT_OF_MEMORY
  | VULKANO_ERROR_CODE_INSTANCE_CREATION_FAILED
  | VULKANO_ERROR_CODE_FAILED_ENUMERATION
  | VULKANO_ERROR_CODE_UNSUPPORTED_VALIDATION_LAYER
  | VULKANO_ERROR_CODE_UNSUPPORTED_INSTANCE_EXTENSION
  | VULKANO_ERROR_CODE_SURFACE_CREATION_FAILED
  | VULKANO_ERROR_CODE_NO_GPU_AVAILABLE
  | VULKANO_ERROR_CODE_NO_SUITABLE_GPU_AVAILABLE
  | VULKANO_ERROR_CODE_DEVICE_CREATION_FAILED
  | VULKANO_ERROR_CODE_FAILED_RESOURCE_CREATION
  | VULKANO_ERROR_CODE_FAILED_RESOURCE_ALLOCATION
  | VULKANO_ERROR_CODE_SWAPCHAIN_CONFIGURATION_FAILED
  | VULKANO_ERROR_CODE_FAILED_SWAPCHAIN_CREATION
  | VULKANO_ERROR_CODE_TIMEOUT
  | VULKANO_ERROR_CODE_FATAL_ERROR
  | VULKANO_ERROR_CODE_MEMORY_REQUIREMENTS_UNFULFILLED
  | VULKANO_ERROR_CODE_VALIDATION
  deriving DecidableEq, Repr

/-- Embedding of `struct vulkano_error` (src/vulkano.h:243-247); the `message` buffer is
diagnostic text and is not modelled. -/
structure vulkano_error where
  code : vulkano_error_code
  result : VkResult
  deriving DecidableEq, Repr

/-- An error value whose `code` is `VULKANO_ERROR_CODE_OK`, as a caller
initializes it before a call chain. -/
def error_ok : vulkano_error :=
  { code := .VULKANO_ERROR_CODE_OK, result := .VK_SUCCESS }

/-- Embedding of `IS_VULKAN_MEMORY_ERROR` (src/vulkano.h:517-518). -/
def IS_VULKAN_MEMORY_ERROR (result : VkResult) : Bool :=
  result == .VK_ERROR_OUT_OF_HOST_MEMORY || result == .VK_ERROR_OUT_OF_DEVICE_MEMORY

/-- Embedding of `vulkano_out_of_memory` (src/vulkano.h:520-526): overwrites the error
record with an out-of-memory report (the incoming error value is not read). -/
def vulkano_out_of_memory (result : VkResult) : vulkano_error :=
  { code := .VULKANO_ERROR_CODE_OUT_OF_MEMORY,
    result := if result = .VK_SUCCESS then .VK_ERROR_OUT_OF_HOST_MEMORY else result }

/-- Embedding of `vulkano_fatal_error` (src/vulkano.h:528-534). -/
def vulkano_fatal_error (result : VkResult) : vulkano_error :=
  { code := .VULKANO_ERROR_CODE_FATAL_ERROR, result := result }

/-- Embedding of `VkMemoryType`: only `propertyFlags` is read by the embedded code. -/
structure VkMemoryType where
  propertyFlags : Nat
  deriving DecidableEq, Repr

instance : Inhabited VkMemoryType := ⟨⟨0⟩⟩

/-- Embedding of `VkPhysicalDeviceMemoryProperties`: the memory-type table, with
`memoryTypeCount` given by the list length. -/
structure VkPhysicalDeviceMemoryProperties where
  memoryTypes : List VkMemoryType
  deriving DecidableEq, Repr

/-- The part of `struct vulkano_gpu` (src/vulkano.h:173-183) read by
`select_memory_type`. -/
structure vulkano_gpu where
  memory_properties : VkPhysicalDeviceMemoryProperties
  deriving DecidableEq, Repr

/-- The per-index test of the scan loop in `select_memory_type`
(src/vulkano.h:2098-2107): bit `i` is set in `required_memory_type_bits`
(`(1 << i) & required_type_bits`), and the type's property flags contain all
requested flags (`required == (typeFlags & required)`). -/
def select_memory_type_test (required_memory_type_bits
    required_memory_property_flags : Nat) (i : Nat) (t : VkMemoryType) : Prop :=
  2 ^ i &&& required_memory_type_bits ≠ 0 ∧
    required_memory_property_flags = t.propertyFlags &&& required_memory_property_flags

instance (bits flags i : Nat) (t : VkMemoryType) :
    Decidable (select_memory_type_test bits flags i t) := by
  unfold select_memory_type_test
  infer_instance

/-- The scan loop of `select_memory_type` (src/vulkano.h:2098-2108), walking
the memory-type table from absolute index `i`; `some` is the first matching
index, `none` means the loop fell through. -/
def select_memory_type_scan (types : List VkMemoryType) (i : Nat)
    (required_memory_type_bits required_memory_property_flags : Nat) : Option Nat :=
  match types with
  | [] => none
  | t :: rest =>
    if select_memory_type_test required_memory_type_bits
        required_memory_property_flags i t then
      some i
    else
      select_memory_type_scan rest (i + 1) required_memory_type_bits
        required_memory_property_flags

/-- Embedding of `select_memory_type` (src/vulkano.h:2090-2116): first matching index wins;
when the scan falls through, the error record is set to
`MEMORY_REQUIREMENTS_UNFULFILLED` with `VK_ERROR_UNKNOWN` and index 0 is
returned. -/
def select_memory_type (gpu : vulkano_gpu)
    (required_memory_type_bits required_memory_property_flags : Nat)
    (error : vulkano_error) : Nat × vulkano_error :=
  match select_memory_type_scan gpu.memory_properties.memoryTypes 0
      required_memory_type_bits required_memory_property_flags with
  | some i => (i, error)
  | none =>
    (0, { code := .VULKANO_ERROR_CODE_MEMORY_REQUIREMENTS_UNFULFILLED,
          result := .VK_ERROR_UNKNOWN })

/-- An index `i` satisfies a memory request against a memory-type table when it
is in range, its bit is set in the type-bits mask, and its property flags are a
superset of the requested flags. -/
def memory_type_matches (types : List VkMemoryType) (bits flags i : Nat) : Prop :=
  i < types.length ∧ select_memory_type_test bits flags i (types.getD i default)

instance (types : List VkMemoryType) (bits flags i : Nat) :
    Decidable (memory_type_matches types bits flags i) := by
  unfold memory_type_matches
  infer_instance

/-!
## Driver-call traces and the buffer subsystem

Driver interaction is observable as a trace of calls.  The result the driver
returns for each fallible call is injected through a `DriverEnv`; device-memory
contents are modelled as a map from memory handles to byte lists.
-/

/-- One call into the Vulkan driver, with the arguments the spec claims talk
about. -/
inductive DriverCall where
  | vkCreateBuffer (size : Nat)
  | vkGetBufferMemoryRequirements (handle : Nat)
  | vkAllocateMemory (size : Nat)
  | vkBindBufferMemory (handle mem : Nat)
  | vkDestroyBuffer (handle : Nat)
  | vkFreeMemory (mem : Nat)
  | vkMapMemory (mem : Nat)
  | vkUnmapMemory (mem : Nat)
  | vkFlushMappedMemoryRanges (mem : Nat)
  | vkInvalidateMappedMemoryRanges (mem : Nat)
  | vkAllocateCommandBuffers
  | vkBeginCommandBuffer (cmd : Nat)
  | vkCmdCopyBuffer (cmd src dst size : Nat)
  | vkEndCommandBuffer (cmd : Nat)
  | vkCreateFence (signaled : Bool)
  | vkDestroyFence
  | vkQueueSubmit
  | vkWaitForFences
  | vkFreeCommandBuffers (cmd : Nat)
  | vkResetFences (slot : Nat)
  | vkResetCommandBuffer (slot : Nat)
  | vkAcquireNextImageKHR (slot : Nat)
  | vkDeviceWaitIdle
  | vkDestroyImageView (handle : Nat)
  | vkDestroyFramebuffer (handle : Nat)
  | vkDestroySwapchainKHR (handle : Nat)
  | vkDestroySemaphore
  | vkCreateSemaphore
  | vkGetPhysicalDeviceSurfaceCapabilitiesKHR
  | vkCreateSwapchainKHR
  | vkDestroyRenderPass (handle : Nat)
  | vkDestroyDescriptorSetLayout (handle : Nat)
  | vkDestroyPipelineLayout (handle : Nat)
  | vkDestroyShaderModule (handle : Nat)
  | vkDestroyPipeline (handle : Nat)
  | vkDestroyDescriptorPool (handle : Nat)
  | vkDestroyCommandPool (handle : Nat)
  | vkDestroyDevice
  | vkDestroySurfaceKHR
  | vkDestroyInstance
  | vkCmdBeginRenderPass
  | vkCmdEndRenderPass
  | vkQueuePresentKHR (slot : Nat)
  | vkQueueSubmitFrame (slot : Nat)
  | vkWaitForFencesSlot (slot : Nat)
  deriving DecidableEq, Repr

def is_create_buffer : DriverCall → Bool
  | .vkCreateBuffer _ => true
  | _ => false

def is_destroy_buffer : DriverCall → Bool
  | .vkDestroyBuffer _ => true
  | _ => false

def is_free_memory : DriverCall → Bool
  | .vkFreeMemory _ => true
  | _ => false

def is_queue_submit : DriverCall → Bool
  | .vkQueueSubmit => true
  | _ => false

def is_allocate_command_buffers : DriverCall → Bool
  | .vkAllocateCommandBuffers => true
  | _ => false

/-- Embedding of `struct vulkano_data` (src/vulkano.h:59-62). -/
structure vulkano_data where
  length : Nat
  bytes : List Nat
  deriving DecidableEq, Repr

/-- Embedding of `struct vulkano_buffer` (src/vulkano.h:305-311). -/
structure vulkano_buffer where
  handle : Nat
  memory : Nat
  usage : Nat
  memory_flags : Nat
  capacity : Nat
  deriving DecidableEq, Repr

def VK_MEMORY_PROPERTY_DEVICE_LOCAL_BIT : Nat := 1

def VK_MEMORY_PROPERTY_HOST_VISIBLE_BIT : Nat := 2

def VK_MEMORY_PROPERTY_HOST_COHERENT_BIT : Nat := 4

def VK_BUFFER_USAGE_TRANSFER_SRC_BIT : Nat := 1

def VK_BUFFER_USAGE_TRANSFER_DST_BIT : Nat := 2

/-- Mutable driver-side state threaded through the embedded operations:
a fresh-handle counter, device-memory contents, the copy commands recorded in
the pending one-shot command buffer, and the trace of driver calls made. -/
structure DriverSt where
  nextId : Nat
  mem : Nat → List Nat
  recorded : List (Nat × Nat × Nat)
  trace : List DriverCall

def emit (st : DriverSt) (c : DriverCall) : DriverSt :=
  { st with trace := st.trace ++ [c] }

/-- Embedding of `memcpy(dst, src, n)` on byte lists: the first `n` bytes of `dst` are
replaced by the first `n` bytes of `src`. -/
def memcpy_bytes (dst src : List Nat) (n : Nat) : List Nat :=
  src.take n ++ dst.drop n

/-- Executing the copy commands recorded in a one-shot command buffer, in
recording order. -/
def apply_recorded (cmds : List (Nat × Nat × Nat)) (mem : Nat → List Nat) :
    Nat → List Nat :=
  match cmds with
  | [] => mem
  | (src, dst, n) :: rest =>
    apply_recorded rest (Function.update mem dst (memcpy_bytes (mem dst) (mem src) n))

/-- Results the driver returns for each kind of fallible call made by the
buffer subsystem, plus the `memoryTypeBits` that
`vkGetBufferMemoryRequirements` reports. -/
structure DriverEnv where
  memoryTypeBits : Nat
  createBufferResult : VkResult
  allocateMemoryResult : VkResult
  bindBufferMemoryResult : VkResult
  mapMemoryResult : VkResult
  flushResult : VkResult
  invalidateResult : VkResult
  allocateCommandBuffersResult : VkResult
  beginCommandBufferResult : VkResult
  createFenceResult : VkResult
  endCommandBufferResult : VkResult
  queueSubmitResult : VkResult
  waitForFencesResult : VkResult
  deriving DecidableEq, Repr

/-- A driver environment in which every call succeeds. -/
def DriverEnv.allOk (memoryTypeBits : Nat) : DriverEnv :=
  { memoryTypeBits := memoryTypeBits
    createBufferResult := .VK_SUCCESS
    allocateMemoryResult := .VK_SUCCESS
    bindBufferMemoryResult := .VK_SUCCESS
    mapMemoryResult := .VK_SUCCESS
    flushResult := .VK_SUCCESS
    invalidateResult := .VK_SUCCESS
    allocateCommandBuffersResult := .VK_SUCCESS
    beginCommandBufferResult := .VK_SUCCESS
    createFenceResult := .VK_SUCCESS
    endCommandBufferResult := .VK_SUCCESS
    queueSubmitResult := .VK_SUCCESS
    waitForFencesResult := .VK_SUCCESS }

/-- Embedding of `vulkano_create_buffer` (src/vulkano.h:2118-2185): create the handle,
query memory requirements, select a memory type, allocate, bind; any failing
step frees everything allocated so far for the buffer.  The `vkAllocateMemory`
size argument stands in for `requirements.size` (not otherwise modelled). -/
def vulkano_create_buffer (env : DriverEnv) (gpu : vulkano_gpu)
    (capacity usage required_memory_properties : Nat)
    (st : DriverSt) (error : vulkano_error) :
    vulkano_buffer × DriverSt × vulkano_error :=
  let buffer : vulkano_buffer :=
    { handle := 0, memory := 0, usage := usage, memory_flags := 0,
      capacity := capacity }
  let st := emit st (.vkCreateBuffer capacity)
  if env.createBufferResult ≠ .VK_SUCCESS then
    (buffer, st,
      { code := .VULKANO_ERROR_CODE_FAILED_RESOURCE_CREATION,
        result := env.createBufferResult })
  else
    let handle := st.nextId + 1
    let st := { st with nextId := handle }
    let buffer := { buffer with handle := handle }
    let st := emit st (.vkGetBufferMemoryRequirements handle)
    let sel := select_memory_type gpu env.memoryTypeBits
      required_memory_properties error
    if sel.2.code ≠ .VULKANO_ERROR_CODE_OK then
      (buffer, emit st (.vkDestroyBuffer handle), sel.2)
    else
      let buffer := { buffer with memory_flags :=
        (gpu.memory_properties.memoryTypes.getD sel.1 default).propertyFlags }
      let st := emit st (.vkAllocateMemory capacity)
      if env.allocateMemoryResult ≠ .VK_SUCCESS then
        (buffer, emit st (.vkDestroyBuffer handle),
          { code := .VULKANO_ERROR_CODE_FAILED_RESOURCE_ALLOCATION,
            result := env.allocateMemoryResult })
      else
        let memId := st.nextId + 1
        let st := { st with
                    nextId := memId,
                    mem := Function.update st.mem memId (List.replicate capacity 0) }
        let buffer := { buffer with memory := memId }
        let st := emit st (.vkBindBufferMemory handle memId)
        if env.bindBufferMemoryResult ≠ .VK_SUCCESS then
          (buffer, emit (emit st (.vkDestroyBuffer handle)) (.vkFreeMemory memId),
            { code := .VULKANO_ERROR_CODE_FAILED_RESOURCE_ALLOCATION,
              result := env.bindBufferMemoryResult })
        else
          (buffer, st, sel.2)

/-- Embedding of `vulkano_destroy_buffer` (src/vulkano.h:2187-2194): destroy the handle and
free the memory when present. -/
def vulkano_destroy_buffer (buffer : vulkano_buffer) (st : DriverSt) : DriverSt :=
  let st := if buffer.handle ≠ 0 then emit st (.vkDestroyBuffer buffer.handle) else st
  if buffer.memory ≠ 0 then emit st (.vkFreeMemory buffer.memory) else st

/-- Embedding of `vulkano_copy_to_buffer_host_coherent` (src/vulkano.h:2196-2213): map the
whole range, copy, unmap. -/
def vulkano_copy_to_buffer_host_coherent (env : DriverEnv)
    (buffer : vulkano_buffer) (data : vulkano_data)
    (st : DriverSt) (error : vulkano_error) : DriverSt × vulkano_error :=
  let st := emit st (.vkMapMemory buffer.memory)
  if env.mapMemoryResult ≠ .VK_SUCCESS then
    (st, vulkano_out_of_memory env.mapMemoryResult)
  else
    let written := memcpy_bytes (st.mem buffer.memory) data.bytes data.length
    let st := { st with mem := Function.update st.mem buffer.memory written }
    (emit st (.vkUnmapMemory buffer.memory), error)

/-- Embedding of `vulkano_copy_to_buffer_host_visible` (src/vulkano.h:2215-2247): map,
copy, flush and invalidate the mapped range, unmap; the first non-success of
flush/invalidate is reported after unmapping. -/
def vulkano_copy_to_buffer_host_visible (env : DriverEnv)
    (buffer : vulkano_buffer) (data : vulkano_data)
    (st : DriverSt) (error : vulkano_error) : DriverSt × vulkano_error :=
  let st := emit st (.vkMapMemory buffer.memory)
  if env.mapMemoryResult ≠ .VK_SUCCESS then
    (st, vulkano_out_of_memory env.mapMemoryResult)
  else
    let written := memcpy_bytes (st.mem buffer.memory) data.bytes data.length
    let st := { st with mem := Function.update st.mem buffer.memory written }
    let st := emit st (.vkFlushMappedMemoryRanges buffer.memory)
    let st := emit st (.vkInvalidateMappedMemoryRanges buffer.memory)
    let st := emit st (.vkUnmapMemory buffer.memory)
    let result := if env.flushResult ≠ .VK_SUCCESS then env.flushResult
      else env.invalidateResult
    (st, if result ≠ .VK_SUCCESS then vulkano_out_of_memory result else error)

/-- Embedding of `vulkano_acquire_single_use_command_buffer` (src/vulkano.h:1822-1850). -/
def vulkano_acquire_single_use_command_buffer (env : DriverEnv)
    (st : DriverSt) (error : vulkano_error) : Nat × DriverSt × vulkano_error :=
  let st := emit st .vkAllocateCommandBuffers
  if env.allocateCommandBuffersResult ≠ .VK_SUCCESS then
    (0, st, vulkano_out_of_memory env.allocateCommandBuffersResult)
  else
    let cmd := st.nextId + 1
    let st := { st with nextId := cmd }
    let st := emit st (.vkBeginCommandBuffer cmd)
    if env.beginCommandBufferResult ≠ .VK_SUCCESS then
      (cmd, emit st (.vkFreeCommandBuffers cmd),
        vulkano_out_of_memory env.beginCommandBufferResult)
    else
      (cmd, st, error)

/-- Embedding of `vulkano_submit_single_use_command_buffer` (src/vulkano.h:1852-1903):
create a fence, end recording, submit, wait; the first failing result jumps to
the cleanup label (`goto` in the source), which frees the command buffer and
destroys the fence when it was created, then maps the result onto the error
record.  Execution of the recorded copy commands by the GPU is applied at the
successful submit and observed through the fence wait. -/
def single_use_submit_error (result : VkResult) (error : vulkano_error) :
    vulkano_error :=
  if result = .VK_SUCCESS then error
  else if result = .VK_TIMEOUT then
    { code := .VULKANO_ERROR_CODE_TIMEOUT, result := result }
  else if IS_VULKAN_MEMORY_ERROR result then vulkano_out_of_memory result
  else vulkano_fatal_error result

def single_use_submit_phase (env : DriverEnv) (cmd : Nat) (st : DriverSt) :
    DriverSt × VkResult :=
  if env.createFenceResult ≠ .VK_SUCCESS then (st, env.createFenceResult)
  else
    let st := emit st (.vkEndCommandBuffer cmd)
    if env.endCommandBufferResult ≠ .VK_SUCCESS then (st, env.endCommandBufferResult)
    else
      let st := emit st .vkQueueSubmit
      if env.queueSubmitResult ≠ .VK_SUCCESS then (st, env.queueSubmitResult)
      else
        let st := { st with
                    mem := apply_recorded st.recorded st.mem,
                    recorded := [] }
        let st := emit st .vkWaitForFences
        (st, env.waitForFencesResult)

def vulkano_submit_single_use_command_buffer (env : DriverEnv) (cmd : Nat)
    (st : DriverSt) (error : vulkano_error) : DriverSt × vulkano_error :=
  let st := emit st (.vkCreateFence false)
  let phase := single_use_submit_phase env cmd st
  let st := emit phase.1 (.vkFreeCommandBuffers cmd)
  let st := if env.createFenceResult = .VK_SUCCESS then emit st .vkDestroyFence else st
  (st, single_use_submit_error phase.2 error)

/-- Embedding of `vulkano_copy_to_buffer_device_local` (src/vulkano.h:2249-2298): require
transfer-destination usage, create a host-visible staging buffer sized to the
copy, copy into it recursively, record and synchronously submit a one-shot
copy-buffer command, and destroy the staging buffer on every path after its
creation (the cleanup label in the source).  The recursive call back into
`vulkano_copy_to_buffer` is passed in explicitly as `recurse`, closing the
mutual recursion of the source. -/
def vulkano_copy_to_buffer_device_local
    (recurse : vulkano_buffer → vulkano_data → DriverSt → vulkano_error →
      DriverSt × vulkano_error)
    (env : DriverEnv) (gpu : vulkano_gpu) (buffer : vulkano_buffer)
    (data : vulkano_data) (st : DriverSt) (error : vulkano_error) :
    DriverSt × vulkano_error :=
  if buffer.usage &&& VK_BUFFER_USAGE_TRANSFER_DST_BIT = 0 then
    (st, { code := .VULKANO_ERROR_CODE_VALIDATION, result := error.result })
  else
    let c := vulkano_create_buffer env gpu data.length
      VK_BUFFER_USAGE_TRANSFER_SRC_BIT VK_MEMORY_PROPERTY_HOST_VISIBLE_BIT st error
    let transfer_buffer := c.1
    if c.2.2.code ≠ .VULKANO_ERROR_CODE_OK then (c.2.1, c.2.2)
    else
      let r2 := recurse transfer_buffer data c.2.1 c.2.2
      if r2.2.code ≠ .VULKANO_ERROR_CODE_OK then
        (vulkano_destroy_buffer transfer_buffer r2.1, r2.2)
      else
        let r3 := vulkano_acquire_single_use_command_buffer env r2.1 r2.2
        if r3.2.2.code ≠ .VULKANO_ERROR_CODE_OK then
          (vulkano_destroy_buffer transfer_buffer r3.2.1, r3.2.2)
        else
          let st4 := emit r3.2.1
            (.vkCmdCopyBuffer r3.1 transfer_buffer.handle buffer.handle data.length)
          let st4 := { st4 with recorded :=
            st4.recorded ++ [(transfer_buffer.memory, buffer.memory, data.length)] }
          let r5 := vulkano_submit_single_use_command_buffer env r3.1 st4 r3.2.2
          (vulkano_destroy_buffer transfer_buffer r5.1, r5.2)

/-- Embedding of `vulkano_copy_to_buffer` (src/vulkano.h:2300-2326): reject overflowing
copies, then dispatch on the granted memory flags (host-coherent, then
host-visible, then the device-local staging path).  `fuel` bounds the
recursion through the device-local path (exhaustion is unreachable from the
public entry point: the staging buffer is host-visible). -/
def vulkano_copy_to_buffer_go (env : DriverEnv) (gpu : vulkano_gpu) :
    Nat → vulkano_buffer → vulkano_data → DriverSt → vulkano_error →
      DriverSt × vulkano_error
  | 0, _, _, st, _ => (st, vulkano_fatal_error .VK_ERROR_UNKNOWN)
  | fuel + 1, buffer, data, st, error =>
    if buffer.capacity < data.length then
      (st, { code := .VULKANO_ERROR_CODE_VALIDATION, result := error.result })
    else if buffer.memory_flags &&& VK_MEMORY_PROPERTY_HOST_COHERENT_BIT ≠ 0 then
      vulkano_copy_to_buffer_host_coherent env buffer data st error
    else if buffer.memory_flags &&& VK_MEMORY_PROPERTY_HOST_VISIBLE_BIT ≠ 0 then
      vulkano_copy_to_buffer_host_visible env buffer data st error
    else
      vulkano_copy_to_buffer_device_local (vulkano_copy_to_buffer_go env gpu fuel)
        env gpu buffer data st error

/-- The public entry point `vulkano_copy_to_buffer`; recursion depth 2 covers
every reachable path (the staging buffer of the device-local path is granted
host-visible memory, so its recursive copy takes a host path). -/
def vulkano_copy_to_buffer (env : DriverEnv) (gpu : vulkano_gpu)
    (buffer : vulkano_buffer) (data : vulkano_data)
    (st : DriverSt) (error : vulkano_error) : DriverSt × vulkano_error :=
  vulkano_copy_to_buffer_go env gpu 2 buffer data st error

/-- A concrete initial driver state used by witnesses. -/
def st0 : DriverSt :=
  { nextId := 8, mem := fun _ => [], recorded := [], trace := [] }

/-- A concrete error record that is already set on entry (a timeout recorded
by an earlier call in the chain). -/
def err_pre : vulkano_error :=
  { code := .VULKANO_ERROR_CODE_TIMEOUT, result := .VK_TIMEOUT }

/-- A concrete buffer granted host-coherent memory. -/
def buf_coherent : vulkano_buffer :=
  { handle := 1, memory := 1, usage := 0, memory_flags := 6, capacity := 4 }

/-- A concrete one-byte payload. -/
def data42 : vulkano_data := { length := 1, bytes := [42] }

/-- A concrete single-type GPU memory table (host-visible and coherent). -/
def gpu_hv : vulkano_gpu := ⟨⟨[⟨6⟩]⟩⟩

/-- Between two driver states, the trace has only grown, and the new suffix
contains no buffer-lifecycle call (no buffer created, destroyed, or freed). -/
def lifecycle_neutral (st r : DriverSt) : Prop :=
  ∃ tr, r.trace = st.trace ++ tr ∧ tr.countP is_create_buffer = 0 ∧
    tr.countP is_destroy_buffer = 0 ∧ tr.countP is_free_memory = 0

/-- A driver environment where every call succeeds except mapping memory,
which reports out-of-host-memory. -/
def env_map_fail : DriverEnv :=
  { DriverEnv.allOk 2 with mapMemoryResult := .VK_ERROR_OUT_OF_HOST_MEMORY }

/-!
## Swapchain configuration and the default surface-format comparator
-/

/-- The two `VkSurfaceCapabilitiesKHR` fields `vulkano_configure_swapchain`
reads. -/
structure VkSurfaceCapabilitiesKHR where
  minImageCount : Nat
  maxImageCount : Nat
  deriving DecidableEq, Repr

/-- Driver responses for the surface-capabilities query. -/
structure SwapchainConfigEnv where
  capabilitiesResult : VkResult
  capabilities : VkSurfaceCapabilitiesKHR
  deriving DecidableEq, Repr

/-- The fields of `struct vulkano` that `vulkano_configure_swapchain` reads
and writes: the render-pass table size and the swapchain configuration it
stores. -/
structure VulkanoSwapchainConfig where
  render_pass_count : Nat
  swapchain_query_size_set : Bool
  swapchain_render_pass : Option Nat
  swapchain_image_count : Nat
  deriving DecidableEq, Repr

/-- Driver calls that create or allocate a driver object. -/
def is_driver_object_creation : DriverCall → Bool
  | .vkCreateBuffer _ => true
  | .vkAllocateMemory _ => true
  | .vkAllocateCommandBuffers => true
  | .vkCreateFence _ => true
  | .vkCreateSemaphore => true
  | .vkCreateSwapchainKHR => true
  | _ => false

/-- Embedding of `vulkano_configure_swapchain` (src/vulkano.h:1525-1581): query surface
capabilities, store the size-query callback, validate the render-pass index,
then validate the requested image count against
`[minImageCount, maxImageCount]`; an out-of-range count is reported as
`VULKANO_ERROR_CODE_SWAPCHAIN_CONFIGURATION_FAILED` (the code the spec's
taxonomy names `InvalidSwapchainImageCount`: this enum member's only use site
is this validation) and the image count is not stored. -/
def vulkano_configure_swapchain (env : SwapchainConfigEnv)
    (vk : VulkanoSwapchainConfig) (image_count render_pass_index : Nat)
    (error : vulkano_error) :
    VulkanoSwapchainConfig × vulkano_error × List DriverCall :=
  let trace := [DriverCall.vkGetPhysicalDeviceSurfaceCapabilitiesKHR]
  if env.capabilitiesResult ≠ .VK_SUCCESS then
    (vk, { code := .VULKANO_ERROR_CODE_FAILED_ENUMERATION,
           result := env.capabilitiesResult }, trace)
  else
    let vk := { vk with swapchain_query_size_set := true }
    if render_pass_index ≥ vk.render_pass_count then
      (vk, { code := .VULKANO_ERROR_CODE_BAD_CONFIGURATION,
             result := .VK_ERROR_UNKNOWN }, trace)
    else
      let vk := { vk with swapchain_render_pass := some render_pass_index }
      if image_count < env.capabilities.minImageCount ∨
          env.capabilities.maxImageCount < image_count then
        (vk, { code := .VULKANO_ERROR_CODE_SWAPCHAIN_CONFIGURATION_FAILED,
               result := .VK_ERROR_UNKNOWN }, trace)
      else
        ({ vk with swapchain_image_count := image_count }, error, trace)

/-- Embedding of `VkSurfaceFormatKHR`, with the Vulkan ABI values of the enumerations the
default comparator mentions: `VK_FORMAT_B8G8R8A8_SRGB = 50`,
`VK_COLOR_SPACE_SRGB_NONLINEAR_KHR = 0`. -/
structure VkSurfaceFormatKHR where
  format : Nat
  colorSpace : Nat
  deriving DecidableEq, Repr

def VK_FORMAT_B8G8R8A8_SRGB : Nat := 50

def VK_COLOR_SPACE_SRGB_NONLINEAR_KHR : Nat := 0

/-- Embedding of `score_surface_format` (src/vulkano.h:2875-2887), exactly as written: the
score starts at 0 and the two preference bits are combined with `&=`
(bitwise AND) instead of `|=`. -/
def score_surface_format (format : VkSurfaceFormatKHR) : Nat :=
  let STANDARD_COLOR_SPACE_BIT : Nat := 2 ^ 30
  let STANDARD_COLOR_FORMAT_BIT : Nat := 2 ^ 29
  let score : Nat := 0
  let score := if format.colorSpace = VK_COLOR_SPACE_SRGB_NONLINEAR_KHR then
    score &&& STANDARD_COLOR_SPACE_BIT else score
  let score := if format.format = VK_FORMAT_B8G8R8A8_SRGB then
    score &&& STANDARD_COLOR_FORMAT_BIT else score
  score

/-- Embedding of `default_surface_format_compare` (src/vulkano.h:2889-2897). -/
def default_surface_format_compare (fmt1 fmt2 : VkSurfaceFormatKHR) : Int :=
  let score1 := score_surface_format fmt1
  let score2 := score_surface_format fmt2
  if score1 > score2 then 1 else if score1 = score2 then 0 else -1

/-!
## Merging name lists during bootstrap
-/

/-- Embedding of `combine_string_arrays_unique` (src/vulkano.h:536-573): the result starts
as a verbatim copy of `array1` (copied before `array1` is sorted in place);
each entry of `array2` is then appended unless `array1` is the null array or
the `bsearch` over the sorted copy reports the entry present.  `malloc_ok`
injects the allocation failure of the combined array.  The sort and search
comparator is `strcmp` cast to the element-pointer type
(src/vulkano.h:555,564), so it reads pointer-representation bytes rather than
string content: both the sort order and every search outcome are
address-dependent.  The environment function `bsearch_hit` injects, per probed
string, whether that search reports a hit (within one call the key side of
each comparison is the probed string's content, so equal strings probe
alike). -/
def combine_string_arrays_unique (malloc_ok : Bool) (bsearch_hit : String → Bool)
    (array1 array2 : List String) (error : vulkano_error) :
    List String × vulkano_error :=
  if array1.length + array2.length = 0 then ([], error)
  else if malloc_ok = false then
    ([], vulkano_out_of_memory .VK_ERROR_OUT_OF_HOST_MEMORY)
  else
    (array1 ++ array2.filter (fun s => array1.isEmpty || !(bsearch_hit s)), error)

/-!
## Frame synchronization engine

`VULKANO_CONCURRENT_FRAMES` (src/vulkano.h:30-32) is a compile-time
configurable ring size (default 2) and is passed around as the
`concurrent_frames` parameter.  Fences are modelled by their signaled state;
waiting on a signaled fence returns `VK_SUCCESS` immediately, waiting on an
unsignaled one returns whatever the environment injects
(`waitUnsignaledResult`).  The trace constructors carry the slot index whose
synchronization object or command buffer a call addresses.
-/

/-- Driver responses for the frame-synchronization calls. -/
structure RenderEnv where
  waitUnsignaledResult : VkResult
  resetFencesResult : VkResult
  resetCommandBufferResult : VkResult
  acquireResults : List VkResult
  recreateOk : Bool
  recreateSemaphoreResult : VkResult
  beginCommandBufferResult : VkResult
  allocateCommandBuffersResult : VkResult
  createSemaphoreResult : VkResult
  createFenceResult : VkResult
  endCommandBufferResult : VkResult
  queueSubmitFrameResult : VkResult
  queuePresentResult : VkResult
  deriving DecidableEq, Repr

/-- A render environment in which every driver call succeeds; waiting on an
unsignaled fence times out (there is no GPU work that would signal it). -/
def RenderEnv.allOk : RenderEnv :=
  { waitUnsignaledResult := .VK_TIMEOUT
    resetFencesResult := .VK_SUCCESS
    resetCommandBufferResult := .VK_SUCCESS
    acquireResults := [.VK_SUCCESS]
    recreateOk := true
    recreateSemaphoreResult := .VK_SUCCESS
    beginCommandBufferResult := .VK_SUCCESS
    allocateCommandBuffersResult := .VK_SUCCESS
    createSemaphoreResult := .VK_SUCCESS
    createFenceResult := .VK_SUCCESS
    endCommandBufferResult := .VK_SUCCESS
    queueSubmitFrameResult := .VK_SUCCESS
    queuePresentResult := .VK_SUCCESS }

/-- Embedding of `struct vulkano_rendering_state` (src/vulkano.h:154-160): the monotonic
frame counter and, per slot, the frame-complete fence (by its signaled
state), plus the trace of driver calls made. -/
structure vulkano_rendering_state where
  frame_count : Nat
  frame_complete : List Bool
  trace : List DriverCall
  deriving DecidableEq, Repr

/-- The per-slot loop of `vulkano_create_rendering_state`
(src/vulkano.h:1765-1805): allocate the slot's command buffer, create its two
semaphores, and create its frame-complete fence with
`VK_FENCE_CREATE_SIGNALED_BIT` (src/vulkano.h:1761-1763) — the fence starts
signaled. -/
def vulkano_create_rendering_state_loop (env : RenderEnv) :
    Nat → vulkano_rendering_state → vulkano_error →
      vulkano_rendering_state × vulkano_error
  | 0, st, error => (st, error)
  | k + 1, st, error =>
    let st := { st with trace := st.trace ++ [.vkAllocateCommandBuffers] }
    if env.allocateCommandBuffersResult ≠ .VK_SUCCESS then
      (st, { code := .VULKANO_ERROR_CODE_FAILED_RESOURCE_ALLOCATION,
             result := env.allocateCommandBuffersResult })
    else
      let st := { st with trace := st.trace ++ [.vkCreateSemaphore] }
      if env.createSemaphoreResult ≠ .VK_SUCCESS then
        (st, { code := .VULKANO_ERROR_CODE_FAILED_RESOURCE_CREATION,
               result := env.createSemaphoreResult })
      else
        let st := { st with trace := st.trace ++ [.vkCreateSemaphore] }
        if env.createSemaphoreResult ≠ .VK_SUCCESS then
          (st, { code := .VULKANO_ERROR_CODE_FAILED_RESOURCE_CREATION,
                 result := env.createSemaphoreResult })
        else
          let st := { st with trace := st.trace ++ [.vkCreateFence true] }
          if env.createFenceResult ≠ .VK_SUCCESS then
            (st, { code := .VULKANO_ERROR_CODE_FAILED_RESOURCE_CREATION,
                   result := env.createFenceResult })
          else
            vulkano_create_rendering_state_loop env k
              { st with frame_complete := st.frame_complete ++ [true] } error

/-- Embedding of `vulkano_create_rendering_state` (src/vulkano.h:1746-1806), starting from
the zero-initialized rendering state. -/
def vulkano_create_rendering_state (env : RenderEnv) (concurrent_frames : Nat)
    (error : vulkano_error) : vulkano_rendering_state × vulkano_error :=
  vulkano_create_rendering_state_loop env concurrent_frames
    { frame_count := 0, frame_complete := [], trace := [] } error

/-- The `acquire_image` retry loop of `vulkano_begin_frame`
(src/vulkano.h:1948-1994): the environment supplies the acquire results one
attempt at a time; out-of-date/suboptimal triggers swapchain destroy+recreate
(abbreviated to its two driver calls here) and recreation of the slot's
image-ready semaphore, then retries.  On the semaphore-recreation failure the
source stores the acquire result, not the semaphore result, in
`error->result` (src/vulkano.h:1970); the model reproduces that. -/
def vulkano_begin_frame_acquire (env : RenderEnv) (frame_index : Nat) :
    List VkResult → vulkano_rendering_state → vulkano_error →
      vulkano_rendering_state × vulkano_error
  | [], st, _ => (st, vulkano_fatal_error .VK_ERROR_UNKNOWN)
  | r :: rest, st, error =>
    let st := { st with trace := st.trace ++ [.vkAcquireNextImageKHR frame_index] }
    if r = .VK_ERROR_OUT_OF_DATE_KHR ∨ r = .VK_SUBOPTIMAL_KHR then
      let st := { st with trace := st.trace ++
        [.vkDestroySwapchainKHR 0, .vkCreateSwapchainKHR] }
      if env.recreateOk = false then
        (st, { code := .VULKANO_ERROR_CODE_FAILED_SWAPCHAIN_CREATION,
               result := .VK_ERROR_UNKNOWN })
      else
        let st := { st with trace := st.trace ++
          [.vkDestroySemaphore, .vkCreateSemaphore] }
        if env.recreateSemaphoreResult ≠ .VK_SUCCESS then
          (st, { code := .VULKANO_ERROR_CODE_FAILED_RESOURCE_CREATION,
                 result := r })
        else
          vulkano_begin_frame_acquire env frame_index rest st error
    else if r = .VK_TIMEOUT then
      (st, { code := .VULKANO_ERROR_CODE_TIMEOUT, result := r })
    else if IS_VULKAN_MEMORY_ERROR r then (st, vulkano_out_of_memory r)
    else if r ≠ .VK_SUCCESS then (st, vulkano_fatal_error r)
    else
      let st := { st with trace := st.trace ++ [.vkBeginCommandBuffer frame_index] }
      if env.beginCommandBufferResult ≠ .VK_SUCCESS then
        (st, vulkano_out_of_memory env.beginCommandBufferResult)
      else
        ({ st with trace := st.trace ++ [.vkCmdBeginRenderPass] }, error)

/-- Embedding of `vulkano_begin_frame` (src/vulkano.h:1905-2020): the slot index is
`frame_count % VULKANO_CONCURRENT_FRAMES` (src/vulkano.h:1910); wait on that
slot's frame-complete fence, reset the fence and the slot's command buffer,
then acquire an image and begin recording. -/
def vulkano_begin_frame (env : RenderEnv) (concurrent_frames : Nat)
    (st : vulkano_rendering_state) (error : vulkano_error) :
    vulkano_rendering_state × vulkano_error :=
  let frame_index := st.frame_count % concurrent_frames
  let st := { st with trace := st.trace ++ [.vkWaitForFencesSlot frame_index] }
  let result := if st.frame_complete.getD frame_index false then .VK_SUCCESS
    else env.waitUnsignaledResult
  if result = .VK_TIMEOUT then
    (st, { code := .VULKANO_ERROR_CODE_TIMEOUT, result := result })
  else if IS_VULKAN_MEMORY_ERROR result then (st, vulkano_out_of_memory result)
  else if result ≠ .VK_SUCCESS then (st, vulkano_fatal_error result)
  else
    let st := { st with
                trace := st.trace ++ [.vkResetFences frame_index],
                frame_complete := st.frame_complete.set frame_index false }
    if env.resetFencesResult ≠ .VK_SUCCESS then
      (st, vulkano_out_of_memory env.resetFencesResult)
    else
      let st := { st with trace := st.trace ++ [.vkResetCommandBuffer frame_index] }
      if env.resetCommandBufferResult ≠ .VK_SUCCESS then
        (st, vulkano_out_of_memory env.resetCommandBufferResult)
      else
        vulkano_begin_frame_acquire env frame_index env.acquireResults st error

/-- Embedding of `vulkano_submit_frame` (src/vulkano.h:2022-2088): the slot index is
`frame_count++ % 2` — the literal 2 of the source (src/vulkano.h:2027), not
`VULKANO_CONCURRENT_FRAMES`; end the render pass and command buffer, submit
waiting on the slot's image-ready semaphore and signaling its
rendering-complete semaphore and frame-complete fence, then present.  The
fence is marked signaled on a successful submit (the GPU signal observed by
the next wait). -/
def vulkano_submit_frame (env : RenderEnv) (st : vulkano_rendering_state)
    (error : vulkano_error) : vulkano_rendering_state × vulkano_error :=
  let frame_index := st.frame_count % 2
  let st := { st with frame_count := st.frame_count + 1 }
  let st := { st with trace := st.trace ++
    [.vkCmdEndRenderPass, .vkEndCommandBuffer frame_index] }
  if env.endCommandBufferResult ≠ .VK_SUCCESS then
    (st, vulkano_out_of_memory env.endCommandBufferResult)
  else
    let st := { st with trace := st.trace ++ [.vkQueueSubmitFrame frame_index] }
    if IS_VULKAN_MEMORY_ERROR env.queueSubmitFrameResult then
      (st, vulkano_out_of_memory env.queueSubmitFrameResult)
    else if env.queueSubmitFrameResult ≠ .VK_SUCCESS then
      (st, vulkano_fatal_error env.queueSubmitFrameResult)
    else
      let st := { st with frame_complete := st.frame_complete.set frame_index true }
      let st := { st with trace := st.trace ++ [.vkQueuePresentKHR frame_index] }
      if env.queuePresentResult = .VK_SUCCESS ∨
          env.queuePresentResult = .VK_SUBOPTIMAL_KHR then (st, error)
      else if env.queuePresentResult = .VK_ERROR_OUT_OF_DATE_KHR then (st, error)
      else if IS_VULKAN_MEMORY_ERROR env.queuePresentResult then
        (st, vulkano_out_of_memory env.queuePresentResult)
      else
        (st, { code := .VULKANO_ERROR_CODE_FATAL_ERROR,
               result := env.queuePresentResult })

/-!
## Teardown: swapchain destruction and full-context destruction
-/

/-- Embedding of `struct vulkano_swapchain_state` (src/vulkano.h:162-171), restricted to
what teardown touches: the present-chain handle and the per-image handle
arrays (`none` models a `NULL` array pointer; a held list has `image_count`
entries). -/
structure vulkano_swapchain_state where
  handle : Nat
  image_count : Nat
  image_views : Option (List Nat)
  framebuffers : Option (List Nat)
  deriving DecidableEq, Repr

/-- Destroy every non-null handle of an array, in order. -/
def destroy_handle_calls (mk : Nat → DriverCall) (handles : List Nat) :
    List DriverCall :=
  handles.filterMap (fun h => if h = 0 then none else some (mk h))

/-- Embedding of `vulkano_destroy_swapchain` (src/vulkano.h:1718-1744): destroy the image
views, then the framebuffers, then the present-chain handle — and nothing
else: in particular no device-idle wait appears anywhere in this function. -/
def vulkano_destroy_swapchain (sw : vulkano_swapchain_state) :
    vulkano_swapchain_state × List DriverCall :=
  let viewCalls := match sw.image_views with
    | none => []
    | some vs => destroy_handle_calls (.vkDestroyImageView) vs
  let fbCalls := match sw.framebuffers with
    | none => []
    | some fbs => destroy_handle_calls (.vkDestroyFramebuffer) fbs
  let chainCalls := if sw.handle ≠ 0 then [.vkDestroySwapchainKHR sw.handle] else []
  ({ handle := 0, image_count := sw.image_count, image_views := none,
     framebuffers := none },
   viewCalls ++ fbCalls ++ chainCalls)

/-- The resource tables of `struct vulkano_resources` (src/vulkano.h:191-208)
that `vulkano_destroy_resources` walks. -/
structure vulkano_resources where
  render_passes : List Nat
  descriptor_set_layouts : List Nat
  pipeline_layouts : List Nat
  graphics_pipelines : List (Nat × List Nat)
  descriptor_pools : List Nat
  command_pool : Nat
  deriving DecidableEq, Repr

/-- Embedding of `vulkano_destroy_resources` (src/vulkano.h:1455-1523): render passes,
descriptor-set layouts, pipeline layouts, pipelines (shader modules first),
descriptor pools, then the command pool. -/
def vulkano_destroy_resources_calls (r : vulkano_resources) : List DriverCall :=
  destroy_handle_calls (.vkDestroyRenderPass) r.render_passes ++
  destroy_handle_calls (.vkDestroyDescriptorSetLayout) r.descriptor_set_layouts ++
  destroy_handle_calls (.vkDestroyPipelineLayout) r.pipeline_layouts ++
  (r.graphics_pipelines.map (fun p =>
    destroy_handle_calls (.vkDestroyShaderModule) p.2 ++
    (if p.1 = 0 then [] else [DriverCall.vkDestroyPipeline p.1]))).flatten ++
  destroy_handle_calls (.vkDestroyDescriptorPool) r.descriptor_pools ++
  (if r.command_pool = 0 then [] else [DriverCall.vkDestroyCommandPool r.command_pool])

/-- Embedding of `vulkano_destroy_rendering_state` (src/vulkano.h:1808-1820): per slot,
destroy the two semaphores and the frame-complete fence when present. -/
def vulkano_destroy_rendering_state_calls :
    List Nat → List Nat → List Nat → List DriverCall
  | ir :: irs, rc :: rcs, fc :: fcs =>
    (if ir = 0 then [] else [DriverCall.vkDestroySemaphore]) ++
    (if rc = 0 then [] else [DriverCall.vkDestroySemaphore]) ++
    (if fc = 0 then [] else [DriverCall.vkDestroyFence]) ++
    vulkano_destroy_rendering_state_calls irs rcs fcs
  | _, _, _ => []

/-- The handles of `struct vulkano` (src/vulkano.h:210-219) that
`vulkano_destroy` tears down. -/
structure vulkano_ctx where
  vk_instance : Nat
  surface : Nat
  device : Nat
  swapchain : vulkano_swapchain_state
  rendering_image_ready : List Nat
  rendering_rendering_complete : List Nat
  rendering_frame_complete : List Nat
  resources : vulkano_resources
  deriving DecidableEq, Repr

/-- Embedding of `vulkano_destroy` (src/vulkano.h:727-741): wait for the device to go idle
(when a device exists), then tear down the swapchain, the rendering state,
the resources, and finally the device, surface and instance. -/
def vulkano_destroy (vk : vulkano_ctx) : List DriverCall :=
  (if vk.device ≠ 0 then [DriverCall.vkDeviceWaitIdle] else []) ++
  (vulkano_destroy_swapchain vk.swapchain).2 ++
  vulkano_destroy_rendering_state_calls vk.rendering_image_ready
    vk.rendering_rendering_complete vk.rendering_frame_complete ++
  vulkano_destroy_resources_calls vk.resources ++
  (if vk.device ≠ 0 then [DriverCall.vkDestroyDevice] else []) ++
  (if vk.surface ≠ 0 then [DriverCall.vkDestroySurfaceKHR] else []) ++
  (if vk.vk_instance ≠ 0 then [DriverCall.vkDestroyInstance] else [])

/-- Driver calls that destroy or free a driver object. -/
def is_destruction : DriverCall → Bool
  | .vkDestroyBuffer _ => true
  | .vkFreeMemory _ => true
  | .vkDestroyFence => true
  | .vkFreeCommandBuffers _ => true
  | .vkDestroyImageView _ => true
  | .vkDestroyFramebuffer _ => true
  | .vkDestroySwapchainKHR _ => true
  | .vkDestroySemaphore => true
  | .vkDestroyRenderPass _ => true
  | .vkDestroyDescriptorSetLayout _ => true
  | .vkDestroyPipelineLayout _ => true
  | .vkDestroyShaderModule _ => true
  | .vkDestroyPipeline _ => true
  | .vkDestroyDescriptorPool _ => true
  | .vkDestroyCommandPool _ => true
  | .vkDestroyDevice => true
  | .vkDestroySurfaceKHR => true
  | .vkDestroyInstance => true
  | _ => false

/-- In a sequence of driver calls, every destruction is preceded by a
device-idle wait (the property C8 asserts of `vulkano_destroy_swapchain`). -/
def idle_precedes_destruction (tr : List DriverCall) : Prop :=
  ∀ i, ∀ hi : i < tr.length, is_destruction (tr.get ⟨i, hi⟩) = true →
    ∃ j, ∃ hj : j < tr.length, j < i ∧ tr.get ⟨j, hj⟩ = DriverCall.vkDeviceWaitIdle

/-- A concrete full context with a live device, used by the C8 witness. -/
def ctx0 : vulkano_ctx :=
  { vk_instance := 1
    surface := 2
    device := 3
    swapchain :=
      { handle := 4
        image_count := 1
        image_views := some [5]
        framebuffers := some [6] }
    rendering_image_ready := [7, 8]
    rendering_rendering_complete := [9, 10]
    rendering_frame_complete := [11, 12]
    resources :=
      { render_passes := [13]
        descriptor_set_layouts := []
        pipeline_layouts := []
        graphics_pipelines := []
        descriptor_pools := []
        command_pool := 14 } }

lemma select_memory_type_scan_none (types : List VkMemoryType)
    (bits flags : Nat) :
    ∀ i, select_memory_type_scan types i bits flags = none →
      ∀ k, k < types.length →
        ¬ select_memory_type_test bits flags (i + k) (types.getD k default) := by
  induction types with
  | nil => intro i _ k hk; simp at hk
  | cons t rest ih =>
    intro i hscan k hk
    unfold select_memory_type_scan at hscan
    by_cases htest : select_memory_type_test bits flags i t
    · simp [htest] at hscan
    · rw [if_neg htest] at hscan
      cases k with
      | zero => simpa using htest
      | succ k =>
        have := ih (i + 1) hscan k (by simpa using hk)
        simpa [Nat.add_assoc, Nat.add_comm 1 k] using this

lemma select_memory_type_scan_some (types : List VkMemoryType)
    (bits flags : Nat) :
    ∀ i j, select_memory_type_scan types i bits flags = some j →
      i ≤ j ∧ j - i < types.length ∧
        select_memory_type_test bits flags j (types.getD (j - i) default) ∧
        ∀ m, m < j - i →
          ¬ select_memory_type_test bits flags (i + m) (types.getD m default) := by
  induction types with
  | nil => intro i j hscan; simp [select_memory_type_scan] at hscan
  | cons t rest ih =>
    intro i j hscan
    unfold select_memory_type_scan at hscan
    by_cases htest : select_memory_type_test bits flags i t
    · rw [if_pos htest] at hscan
      have hij : i = j := by simpa using hscan
      subst hij
      refine ⟨Nat.le_refl i, by simp, ?_, ?_⟩
      · simpa using htest
      · intro m hm; omega
    · rw [if_neg htest] at hscan
      obtain ⟨h1, h2, h3, h4⟩ := ih (i + 1) j hscan
      refine ⟨by omega, by simp; omega, ?_, ?_⟩
      · have : j - i = (j - (i + 1)) + 1 := by omega
        rw [this]
        simpa using h3
      · intro m hm
        cases m with
        | zero => simpa using htest
        | succ m =>
          have := h4 m (by omega)
          simpa [Nat.add_assoc, Nat.add_comm 1 m] using this

/-- C1: with at least one satisfying entry, `select_memory_type` returns the
first satisfying index in driver-reported order and leaves the error record
untouched; with no satisfying entry it reports
`MEMORY_REQUIREMENTS_UNFULFILLED`; and whenever the call comes back without an
error report, the returned index really does satisfy both conditions (no bogus
index is silently handed out). -/
theorem select_memory_type_correct (gpu : vulkano_gpu) (bits flags : Nat)
    (error : vulkano_error)
    (h : error.code = .VULKANO_ERROR_CODE_OK) :
    ((∃ i, memory_type_matches gpu.memory_properties.memoryTypes bits flags i) →
      memory_type_matches gpu.memory_properties.memoryTypes bits flags
          (select_memory_type gpu bits flags error).1 ∧
        (∀ j, j < (select_memory_type gpu bits flags error).1 →
          ¬ memory_type_matches gpu.memory_properties.memoryTypes bits flags j) ∧
        (select_memory_type gpu bits flags error).2 = error) ∧
    ((¬ ∃ i, memory_type_matches gpu.memory_properties.memoryTypes bits flags i) →
      (select_memory_type gpu bits flags error).2.code =
        .VULKANO_ERROR_CODE_MEMORY_REQUIREMENTS_UNFULFILLED) ∧
    ((select_memory_type gpu bits flags error).2.code = .VULKANO_ERROR_CODE_OK →
      memory_type_matches gpu.memory_properties.memoryTypes bits flags
        (select_memory_type gpu bits flags error).1) := by
  set types := gpu.memory_properties.memoryTypes with htypes
  unfold select_memory_type
  rcases hscan : select_memory_type_scan types 0 bits flags with _ | j
  · refine ⟨?_, ?_, ?_⟩
    · rintro ⟨i, hi, hitest⟩
      exact absurd (by simpa using select_memory_type_scan_none types bits flags 0 hscan i hi)
        (by simpa using hitest)
    · intro; rfl
    · intro hcode
      simp at hcode
  · obtain ⟨_, hlt, htest, hmin⟩ := select_memory_type_scan_some types bits flags 0 j hscan
    simp only [Nat.sub_zero] at hlt htest
    have hmatch : memory_type_matches types bits flags j := ⟨hlt, htest⟩
    refine ⟨?_, ?_, ?_⟩
    · intro _
      refine ⟨hmatch, ?_, rfl⟩
      intro m hm hmem
      have hmin2 := hmin m (by simpa using hm)
      simp only [Nat.zero_add] at hmin2
      exact hmin2 hmem.2
    · intro hnone
      exact absurd ⟨j, hmatch⟩ hnone
    · intro _
      exact hmatch

/-- Witness for `select_memory_type_correct` on a concrete two-entry table:
type 0 is device-local only, type 1 is host-visible and host-coherent; a
request for host-visible memory with both type bits allowed selects index 1. -/
theorem select_memory_type_correct_witness :
    error_ok.code = .VULKANO_ERROR_CODE_OK ∧
      ((∃ i, memory_type_matches [⟨1⟩, ⟨6⟩] 3 2 i) →
        memory_type_matches [⟨1⟩, ⟨6⟩] 3 2
            (select_memory_type ⟨⟨[⟨1⟩, ⟨6⟩]⟩⟩ 3 2 error_ok).1 ∧
          (∀ j, j < (select_memory_type ⟨⟨[⟨1⟩, ⟨6⟩]⟩⟩ 3 2 error_ok).1 →
            ¬ memory_type_matches [⟨1⟩, ⟨6⟩] 3 2 j) ∧
          (select_memory_type ⟨⟨[⟨1⟩, ⟨6⟩]⟩⟩ 3 2 error_ok).2 = error_ok) ∧
      ((¬ ∃ i, memory_type_matches [⟨1⟩, ⟨6⟩] 3 2 i) →
        (select_memory_type ⟨⟨[⟨1⟩, ⟨6⟩]⟩⟩ 3 2 error_ok).2.code =
          .VULKANO_ERROR_CODE_MEMORY_REQUIREMENTS_UNFULFILLED) ∧
      ((select_memory_type ⟨⟨[⟨1⟩, ⟨6⟩]⟩⟩ 3 2 error_ok).2.code =
          .VULKANO_ERROR_CODE_OK →
        memory_type_matches [⟨1⟩, ⟨6⟩] 3 2
          (select_memory_type ⟨⟨[⟨1⟩, ⟨6⟩]⟩⟩ 3 2 error_ok).1) :=
  ⟨by decide, select_memory_type_correct ⟨⟨[⟨1⟩, ⟨6⟩]⟩⟩ 3 2 error_ok (by decide)⟩

/-- C3: an overflowing copy (`data.length > buffer.capacity`) is rejected with
a `Validation` error before any driver call, whatever memory-flag tier the
buffer was granted: the driver state (including the call trace) is returned
untouched. -/
theorem vulkano_copy_to_buffer_rejects_overflow (env : DriverEnv)
    (gpu : vulkano_gpu) (buffer : vulkano_buffer) (data : vulkano_data)
    (st : DriverSt) (error : vulkano_error)
    (h : buffer.capacity < data.length) :
    vulkano_copy_to_buffer env gpu buffer data st error =
      (st, { code := .VULKANO_ERROR_CODE_VALIDATION, result := error.result }) := by
  unfold vulkano_copy_to_buffer vulkano_copy_to_buffer_go
  rw [if_pos h]

/-- Witness for `vulkano_copy_to_buffer_rejects_overflow`: copying two bytes
into a one-byte host-coherent buffer. -/
theorem vulkano_copy_to_buffer_rejects_overflow_witness :
    (1 : Nat) < 2 ∧
      vulkano_copy_to_buffer (DriverEnv.allOk 1) gpu_hv
          { handle := 1, memory := 1, usage := 0, memory_flags := 6, capacity := 1 }
          { length := 2, bytes := [1, 2] } st0 error_ok =
        (st0, { code := .VULKANO_ERROR_CODE_VALIDATION, result := .VK_SUCCESS }) :=
  ⟨by decide,
    vulkano_copy_to_buffer_rejects_overflow (DriverEnv.allOk 1) gpu_hv
      { handle := 1, memory := 1, usage := 0, memory_flags := 6, capacity := 1 }
      { length := 2, bytes := [1, 2] } st0 error_ok (by decide)⟩

/-- C2 counterexample: `vulkano_copy_to_buffer` does not check the error
record on entry.  Called with an error already set (a recorded timeout), it
still maps device memory and performs the copy: the driver-call trace is
nonempty, so the call is not a pure no-op. -/
theorem error_already_set_not_noop_counterexample :
    err_pre.code ≠ .VULKANO_ERROR_CODE_OK ∧
      (vulkano_copy_to_buffer (DriverEnv.allOk 1) gpu_hv buf_coherent data42
          st0 err_pre).1.trace ≠ [] := by
  constructor
  · decide
  · intro hcontra
    have : (vulkano_copy_to_buffer (DriverEnv.allOk 1) gpu_hv buf_coherent data42
        st0 err_pre).1.trace = [.vkMapMemory 1, .vkUnmapMemory 1] := by decide
    rw [this] at hcontra
    exact absurd hcontra (by decide)

lemma select_memory_type_eq_of_matches (gpu : vulkano_gpu) (bits flags : Nat)
    (error : vulkano_error)
    (hmatch : ∃ i, memory_type_matches gpu.memory_properties.memoryTypes bits flags i) :
    ∃ j, select_memory_type gpu bits flags error = (j, error) ∧
      memory_type_matches gpu.memory_properties.memoryTypes bits flags j := by
  rcases hscan : select_memory_type_scan gpu.memory_properties.memoryTypes 0 bits flags
    with _ | j
  · obtain ⟨i, hi, hitest⟩ := hmatch
    have := select_memory_type_scan_none gpu.memory_properties.memoryTypes bits flags
      0 hscan i hi
    rw [Nat.zero_add] at this
    exact absurd hitest this
  · obtain ⟨_, hlt, htest, _⟩ :=
      select_memory_type_scan_some gpu.memory_properties.memoryTypes bits flags 0 j hscan
    simp only [Nat.sub_zero] at hlt htest
    refine ⟨j, ?_, hlt, htest⟩
    unfold select_memory_type
    rw [hscan]

lemma vulkano_create_buffer_ok (env : DriverEnv) (gpu : vulkano_gpu)
    (capacity usage req : Nat) (st : DriverSt) (error : vulkano_error)
    (herr : error.code = .VULKANO_ERROR_CODE_OK)
    (hcreate : env.createBufferResult = .VK_SUCCESS)
    (hmatch : ∃ i, memory_type_matches gpu.memory_properties.memoryTypes
      env.memoryTypeBits req i)
    (halloc : env.allocateMemoryResult = .VK_SUCCESS)
    (hbind : env.bindBufferMemoryResult = .VK_SUCCESS) :
    ∃ j, memory_type_matches gpu.memory_properties.memoryTypes env.memoryTypeBits req j ∧
      vulkano_create_buffer env gpu capacity usage req st error =
        ({ handle := st.nextId + 1, memory := st.nextId + 2, usage := usage,
           memory_flags :=
             (gpu.memory_properties.memoryTypes.getD j default).propertyFlags,
           capacity := capacity },
         { nextId := st.nextId + 2,
           mem := Function.update st.mem (st.nextId + 2) (List.replicate capacity 0),
           recorded := st.recorded,
           trace := st.trace ++
             [.vkCreateBuffer capacity,
              .vkGetBufferMemoryRequirements (st.nextId + 1),
              .vkAllocateMemory capacity,
              .vkBindBufferMemory (st.nextId + 1) (st.nextId + 2)] },
         error) := by
  obtain ⟨j, hsel, hjmatch⟩ :=
    select_memory_type_eq_of_matches gpu env.memoryTypeBits req error hmatch
  refine ⟨j, hjmatch, ?_⟩
  unfold vulkano_create_buffer
  simp [emit, hcreate, hsel, herr, halloc, hbind]

lemma lifecycle_neutral_trans {a b c : DriverSt} (h1 : lifecycle_neutral a b)
    (h2 : lifecycle_neutral b c) : lifecycle_neutral a c := by
  obtain ⟨t1, e1, c1, d1, f1⟩ := h1
  obtain ⟨t2, e2, c2, d2, f2⟩ := h2
  exact ⟨t1 ++ t2, by rw [e2, e1, List.append_assoc],
    by simp [List.countP_append, c1, c2],
    by simp [List.countP_append, d1, d2],
    by simp [List.countP_append, f1, f2]⟩

lemma host_coherent_lifecycle_neutral (env : DriverEnv) (buffer : vulkano_buffer)
    (data : vulkano_data) (st : DriverSt) (error : vulkano_error) :
    lifecycle_neutral st
      (vulkano_copy_to_buffer_host_coherent env buffer data st error).1 := by
  unfold vulkano_copy_to_buffer_host_coherent
  split_ifs
  · exact ⟨[.vkMapMemory buffer.memory], by simp [emit], rfl, rfl, rfl⟩
  · exact ⟨[.vkMapMemory buffer.memory, .vkUnmapMemory buffer.memory],
      by simp [emit], rfl, rfl, rfl⟩

lemma host_visible_lifecycle_neutral (env : DriverEnv) (buffer : vulkano_buffer)
    (data : vulkano_data) (st : DriverSt) (error : vulkano_error) :
    lifecycle_neutral st
      (vulkano_copy_to_buffer_host_visible env buffer data st error).1 := by
  unfold vulkano_copy_to_buffer_host_visible
  split_ifs
  · exact ⟨[.vkMapMemory buffer.memory], by simp [emit], rfl, rfl, rfl⟩
  · exact ⟨[.vkMapMemory buffer.memory, .vkFlushMappedMemoryRanges buffer.memory,
      .vkInvalidateMappedMemoryRanges buffer.memory, .vkUnmapMemory buffer.memory],
      by simp [emit], rfl, rfl, rfl⟩
  · exact ⟨[.vkMapMemory buffer.memory, .vkFlushMappedMemoryRanges buffer.memory,
      .vkInvalidateMappedMemoryRanges buffer.memory, .vkUnmapMemory buffer.memory],
      by simp [emit], rfl, rfl, rfl⟩

lemma acquire_lifecycle_neutral (env : DriverEnv) (st : DriverSt)
    (error : vulkano_error) :
    lifecycle_neutral st
      (vulkano_acquire_single_use_command_buffer env st error).2.1 := by
  unfold vulkano_acquire_single_use_command_buffer
  split_ifs
  · exact ⟨[.vkAllocateCommandBuffers], by simp [emit], rfl, rfl, rfl⟩
  · exact ⟨[.vkAllocateCommandBuffers, .vkBeginCommandBuffer (st.nextId + 1),
      .vkFreeCommandBuffers (st.nextId + 1)],
      by simp [emit], rfl, rfl, rfl⟩
  · exact ⟨[.vkAllocateCommandBuffers, .vkBeginCommandBuffer (st.nextId + 1)],
      by simp [emit], rfl, rfl, rfl⟩

lemma emit_lifecycle_neutral (st : DriverSt) (c : DriverCall)
    (h1 : is_create_buffer c = false) (h2 : is_destroy_buffer c = false)
    (h3 : is_free_memory c = false) : lifecycle_neutral st (emit st c) :=
  ⟨[c], rfl, by simp [h1], by simp [h2], by simp [h3]⟩

lemma phase_lifecycle_neutral (env : DriverEnv) (cmd : Nat) (st : DriverSt) :
    lifecycle_neutral st (single_use_submit_phase env cmd st).1 := by
  unfold single_use_submit_phase
  split_ifs
  · exact ⟨[], by simp, rfl, rfl, rfl⟩
  · exact ⟨[.vkEndCommandBuffer cmd], by simp [emit], rfl, rfl, rfl⟩
  · exact ⟨[.vkEndCommandBuffer cmd, .vkQueueSubmit], by simp [emit], rfl, rfl, rfl⟩
  · exact ⟨[.vkEndCommandBuffer cmd, .vkQueueSubmit, .vkWaitForFences],
      by simp [emit], rfl, rfl, rfl⟩

lemma submit_lifecycle_neutral (env : DriverEnv) (cmd : Nat) (st : DriverSt)
    (error : vulkano_error) :
    lifecycle_neutral st
      (vulkano_submit_single_use_command_buffer env cmd st error).1 := by
  unfold vulkano_submit_single_use_command_buffer
  have n1 : lifecycle_neutral st (emit st (.vkCreateFence false)) :=
    emit_lifecycle_neutral st _ rfl rfl rfl
  have n2 := phase_lifecycle_neutral env cmd (emit st (.vkCreateFence false))
  have n3 : lifecycle_neutral
      (single_use_submit_phase env cmd (emit st (.vkCreateFence false))).1
      (emit (single_use_submit_phase env cmd (emit st (.vkCreateFence false))).1
        (.vkFreeCommandBuffers cmd)) :=
    emit_lifecycle_neutral _ _ rfl rfl rfl
  have n123 := lifecycle_neutral_trans (lifecycle_neutral_trans n1 n2) n3
  split_ifs with h
  · exact lifecycle_neutral_trans n123 (emit_lifecycle_neutral _ _ rfl rfl rfl)
  · exact n123

lemma go_host_lifecycle_neutral (env : DriverEnv) (gpu : vulkano_gpu) (fuel : Nat)
    (buffer : vulkano_buffer) (data : vulkano_data) (st : DriverSt)
    (error : vulkano_error)
    (hvis : buffer.memory_flags &&& VK_MEMORY_PROPERTY_HOST_VISIBLE_BIT ≠ 0) :
    lifecycle_neutral st
      (vulkano_copy_to_buffer_go env gpu (fuel + 1) buffer data st error).1 := by
  unfold vulkano_copy_to_buffer_go
  split_ifs with h1 h2
  · exact ⟨[], by simp, rfl, rfl, rfl⟩
  · exact host_coherent_lifecycle_neutral env buffer data st error
  · exact host_visible_lifecycle_neutral env buffer data st error

lemma destroy_buffer_trace_nonzero (buffer : vulkano_buffer) (st : DriverSt)
    (hh : buffer.handle ≠ 0) (hm : buffer.memory ≠ 0) :
    (vulkano_destroy_buffer buffer st).trace =
      st.trace ++ [.vkDestroyBuffer buffer.handle, .vkFreeMemory buffer.memory] ∧
    (vulkano_destroy_buffer buffer st).nextId = st.nextId ∧
    (vulkano_destroy_buffer buffer st).mem = st.mem := by
  unfold vulkano_destroy_buffer
  rw [if_pos hh, if_pos hm]
  simp [emit]

lemma lifecycle_neutral_counts {a b : DriverSt} (h : lifecycle_neutral a b) :
    b.trace.countP is_create_buffer = a.trace.countP is_create_buffer ∧
    b.trace.countP is_destroy_buffer = a.trace.countP is_destroy_buffer ∧
    b.trace.countP is_free_memory = a.trace.countP is_free_memory ∧
    ∀ c, c ∈ a.trace → c ∈ b.trace := by
  obtain ⟨t, ht, hc, hd, hf⟩ := h
  refine ⟨?_, ?_, ?_, ?_⟩
  · rw [ht, List.countP_append, hc, Nat.add_zero]
  · rw [ht, List.countP_append, hd, Nat.add_zero]
  · rw [ht, List.countP_append, hf, Nat.add_zero]
  · intro c hcmem
    rw [ht]
    exact List.mem_append_left _ hcmem

lemma memcpy_bytes_take (d s : List Nat) (n : Nat) (h : n ≤ s.length) :
    (memcpy_bytes d s n).take n = s.take n := by
  unfold memcpy_bytes
  have hlen : (s.take n).length = n := by simp [h]
  rw [List.take_left' hlen]

lemma memcpy_bytes_drop (d s : List Nat) (n : Nat) (h : n ≤ s.length) :
    (memcpy_bytes d s n).drop n = d.drop n := by
  unfold memcpy_bytes
  have hlen : (s.take n).length = n := by simp [h]
  rw [List.drop_left' hlen]

lemma memcpy_bytes_length (d s : List Nat) (n : Nat) :
    (memcpy_bytes d s n).length = min n s.length + (d.length - n) := by
  unfold memcpy_bytes
  simp

lemma host_coherent_allOk_eval (bits : Nat) (buffer : vulkano_buffer)
    (data : vulkano_data) (st : DriverSt) (error : vulkano_error) :
    vulkano_copy_to_buffer_host_coherent (DriverEnv.allOk bits) buffer data st error =
      ({ nextId := st.nextId,
         mem := Function.update st.mem buffer.memory
           (memcpy_bytes (st.mem buffer.memory) data.bytes data.length),
         recorded := st.recorded,
         trace := st.trace ++
           [.vkMapMemory buffer.memory, .vkUnmapMemory buffer.memory] }, error) := by
  unfold vulkano_copy_to_buffer_host_coherent
  simp [DriverEnv.allOk, emit]

lemma host_visible_allOk_eval (bits : Nat) (buffer : vulkano_buffer)
    (data : vulkano_data) (st : DriverSt) (error : vulkano_error) :
    vulkano_copy_to_buffer_host_visible (DriverEnv.allOk bits) buffer data st error =
      ({ nextId := st.nextId,
         mem := Function.update st.mem buffer.memory
           (memcpy_bytes (st.mem buffer.memory) data.bytes data.length),
         recorded := st.recorded,
         trace := st.trace ++
           [.vkMapMemory buffer.memory, .vkFlushMappedMemoryRanges buffer.memory,
            .vkInvalidateMappedMemoryRanges buffer.memory,
            .vkUnmapMemory buffer.memory] }, error) := by
  unfold vulkano_copy_to_buffer_host_visible
  simp [DriverEnv.allOk, emit]

lemma acquire_allOk_eval (bits : Nat) (st : DriverSt) (error : vulkano_error) :
    vulkano_acquire_single_use_command_buffer (DriverEnv.allOk bits) st error =
      (st.nextId + 1,
       { nextId := st.nextId + 1, mem := st.mem, recorded := st.recorded,
         trace := st.trace ++
           [.vkAllocateCommandBuffers, .vkBeginCommandBuffer (st.nextId + 1)] },
       error) := by
  unfold vulkano_acquire_single_use_command_buffer
  simp [DriverEnv.allOk, emit]

lemma submit_allOk_eval (bits : Nat) (cmd : Nat) (st : DriverSt)
    (error : vulkano_error) :
    vulkano_submit_single_use_command_buffer (DriverEnv.allOk bits) cmd st error =
      ({ nextId := st.nextId, mem := apply_recorded st.recorded st.mem,
         recorded := [],
         trace := st.trace ++
           [.vkCreateFence false, .vkEndCommandBuffer cmd, .vkQueueSubmit,
            .vkWaitForFences, .vkFreeCommandBuffers cmd, .vkDestroyFence] },
       error) := by
  unfold vulkano_submit_single_use_command_buffer single_use_submit_phase
    single_use_submit_error
  simp [DriverEnv.allOk, emit]

/-- C4: on a buffer granted only device-local memory, a copy without
transfer-destination usage fails with `Validation` before any driver work;
with that usage, as soon as the staging buffer is created successfully, the
run creates exactly one buffer (the staging buffer, sized to the copy) and
destroys and frees it exactly once, whatever the results of all later driver
calls; and when every driver call succeeds, the destination memory ends with
the payload bytes in its first `data.length` positions (the rest untouched),
exactly one queue submit occurs, and no error is reported. -/
theorem vulkano_copy_to_buffer_device_local_correct
    (env : DriverEnv) (gpu : vulkano_gpu) (buffer : vulkano_buffer)
    (data : vulkano_data) (st : DriverSt) (error : vulkano_error)
    (herr : error.code = .VULKANO_ERROR_CODE_OK)
    (hcap : data.length ≤ buffer.capacity)
    (hcoh : buffer.memory_flags &&& VK_MEMORY_PROPERTY_HOST_COHERENT_BIT = 0)
    (hvis : buffer.memory_flags &&& VK_MEMORY_PROPERTY_HOST_VISIBLE_BIT = 0)
    (htrace : st.trace = []) :
    (buffer.usage &&& VK_BUFFER_USAGE_TRANSFER_DST_BIT = 0 →
      vulkano_copy_to_buffer env gpu buffer data st error =
        (st, { code := .VULKANO_ERROR_CODE_VALIDATION, result := error.result })) ∧
    (buffer.usage &&& VK_BUFFER_USAGE_TRANSFER_DST_BIT ≠ 0 →
      env.createBufferResult = .VK_SUCCESS →
      (∃ i, memory_type_matches gpu.memory_properties.memoryTypes
        env.memoryTypeBits VK_MEMORY_PROPERTY_HOST_VISIBLE_BIT i) →
      env.allocateMemoryResult = .VK_SUCCESS →
      env.bindBufferMemoryResult = .VK_SUCCESS →
      (vulkano_copy_to_buffer env gpu buffer data st error).1.trace.countP
          is_create_buffer = 1 ∧
      (vulkano_copy_to_buffer env gpu buffer data st error).1.trace.countP
          is_destroy_buffer = 1 ∧
      (vulkano_copy_to_buffer env gpu buffer data st error).1.trace.countP
          is_free_memory = 1 ∧
      DriverCall.vkCreateBuffer data.length ∈
        (vulkano_copy_to_buffer env gpu buffer data st error).1.trace ∧
      DriverCall.vkDestroyBuffer (st.nextId + 1) ∈
        (vulkano_copy_to_buffer env gpu buffer data st error).1.trace) ∧
    (buffer.usage &&& VK_BUFFER_USAGE_TRANSFER_DST_BIT ≠ 0 →
      env = DriverEnv.allOk env.memoryTypeBits →
      (∃ i, memory_type_matches gpu.memory_properties.memoryTypes
        env.memoryTypeBits VK_MEMORY_PROPERTY_HOST_VISIBLE_BIT i) →
      data.length ≤ data.bytes.length →
      st.recorded = [] →
      buffer.memory ≤ st.nextId →
      (vulkano_copy_to_buffer env gpu buffer data st error).2 = error ∧
      ((vulkano_copy_to_buffer env gpu buffer data st error).1.mem
          buffer.memory).take data.length = data.bytes.take data.length ∧
      ((vulkano_copy_to_buffer env gpu buffer data st error).1.mem
          buffer.memory).drop data.length =
        (st.mem buffer.memory).drop data.length ∧
      (vulkano_copy_to_buffer env gpu buffer data st error).1.trace.countP
        is_queue_submit = 1) := by
  have hnotlt : ¬ (buffer.capacity < data.length) := Nat.not_lt.mpr hcap
  have hstep : vulkano_copy_to_buffer env gpu buffer data st error =
      vulkano_copy_to_buffer_device_local (vulkano_copy_to_buffer_go env gpu 1)
        env gpu buffer data st error := by
    unfold vulkano_copy_to_buffer
    simp [vulkano_copy_to_buffer_go, hnotlt, hcoh, hvis]
  refine ⟨?_, ?_, ?_⟩
  · intro h0
    rw [hstep]
    unfold vulkano_copy_to_buffer_device_local
    rw [if_pos h0]
  · intro husage hcreate hmatch halloc hbind
    rw [hstep]
    unfold vulkano_copy_to_buffer_device_local
    rw [if_neg husage]
    obtain ⟨j, hjmatch, hec⟩ := vulkano_create_buffer_ok env gpu data.length
      VK_BUFFER_USAGE_TRANSFER_SRC_BIT VK_MEMORY_PROPERTY_HOST_VISIBLE_BIT
      st error herr hcreate hmatch halloc hbind
    set CB := vulkano_create_buffer env gpu data.length
      VK_BUFFER_USAGE_TRANSFER_SRC_BIT VK_MEMORY_PROPERTY_HOST_VISIBLE_BIT
      st error with hCBd
    have hC1h : CB.1.handle = st.nextId + 1 := by rw [hec]
    have hC1m : CB.1.memory = st.nextId + 2 := by rw [hec]
    have hC22 : CB.2.2 = error := by rw [hec]
    have hTtr : CB.2.1.trace =
        [.vkCreateBuffer data.length,
         .vkGetBufferMemoryRequirements (st.nextId + 1),
         .vkAllocateMemory data.length,
         .vkBindBufferMemory (st.nextId + 1) (st.nextId + 2)] := by
      rw [hec, htrace]
      simp
    have hSvis : CB.1.memory_flags &&& VK_MEMORY_PROPERTY_HOST_VISIBLE_BIT ≠ 0 := by
      rw [hec]
      show (gpu.memory_properties.memoryTypes.getD j default).propertyFlags &&&
        VK_MEMORY_PROPERTY_HOST_VISIBLE_BIT ≠ 0
      rw [← hjmatch.2.2]
      decide
    have hbase : CB.2.1.trace.countP is_create_buffer = 1 ∧
        CB.2.1.trace.countP is_destroy_buffer = 0 ∧
        CB.2.1.trace.countP is_free_memory = 0 := by
      rw [hTtr]
      exact ⟨rfl, rfl, rfl⟩
    simp only [hC22, herr, ne_eq, reduceIte, eq_self_iff_true, not_true, if_false]
    have hneut2 := go_host_lifecycle_neutral env gpu 0 CB.1 data CB.2.1 error hSvis
    simp only [Nat.zero_add] at hneut2
    set r2 := vulkano_copy_to_buffer_go env gpu 1 CB.1 data CB.2.1 error with hr2d
    obtain ⟨hq1, hq2, hq3, hqm⟩ := lifecycle_neutral_counts hneut2
    have hhne : CB.1.handle ≠ 0 := by rw [hC1h]; omega
    have hmne : CB.1.memory ≠ 0 := by rw [hC1m]; omega
    by_cases hok2 : r2.2.code = .VULKANO_ERROR_CODE_OK
    · simp only [hok2, eq_self_iff_true, not_true, if_false]
      have hneut3 := acquire_lifecycle_neutral env r2.1 r2.2
      set r3 := vulkano_acquire_single_use_command_buffer env r2.1 r2.2 with hr3d
      obtain ⟨ha1, ha2, ha3, ham⟩ := lifecycle_neutral_counts hneut3
      by_cases hok3 : r3.2.2.code = .VULKANO_ERROR_CODE_OK
      · simp only [hok3, eq_self_iff_true, not_true, if_false]
        have hneut4 : lifecycle_neutral r3.2.1
            { emit r3.2.1 (.vkCmdCopyBuffer r3.1 CB.1.handle buffer.handle data.length)
                with recorded :=
              (emit r3.2.1
                (.vkCmdCopyBuffer r3.1 CB.1.handle buffer.handle data.length)).recorded
                ++ [(CB.1.memory, buffer.memory, data.length)] } :=
          ⟨[.vkCmdCopyBuffer r3.1 CB.1.handle buffer.handle data.length],
            by simp [emit], rfl, rfl, rfl⟩
        obtain ⟨hb1, hb2, hb3, hbm⟩ := lifecycle_neutral_counts hneut4
        have hneut5 := submit_lifecycle_neutral env r3.1
          { emit r3.2.1 (.vkCmdCopyBuffer r3.1 CB.1.handle buffer.handle data.length)
              with recorded :=
            (emit r3.2.1
              (.vkCmdCopyBuffer r3.1 CB.1.handle buffer.handle data.length)).recorded
              ++ [(CB.1.memory, buffer.memory, data.length)] } r3.2.2
        obtain ⟨hc1, hc2, hc3, hcm⟩ := lifecycle_neutral_counts hneut5
        obtain ⟨hdt, -, -⟩ := destroy_buffer_trace_nonzero CB.1
          (vulkano_submit_single_use_command_buffer env r3.1
            { emit r3.2.1 (.vkCmdCopyBuffer r3.1 CB.1.handle buffer.handle data.length)
                with recorded :=
              (emit r3.2.1
                (.vkCmdCopyBuffer r3.1 CB.1.handle buffer.handle data.length)).recorded
                ++ [(CB.1.memory, buffer.memory, data.length)] } r3.2.2).1
          hhne hmne
        refine ⟨?_, ?_, ?_, ?_, ?_⟩
        · rw [hdt, List.countP_append, hc1, hb1, ha1, hq1, hbase.1]
          rfl
        · rw [hdt, List.countP_append, hc2, hb2, ha2, hq2, hbase.2.1]
          rfl
        · rw [hdt, List.countP_append, hc3, hb3, ha3, hq3, hbase.2.2]
          rfl
        · rw [hdt]
          refine List.mem_append_left _ (hcm _ (hbm _ (ham _ (hqm _ ?_))))
          rw [hTtr]
          simp
        · rw [hdt, hC1h]
          simp
      · rw [if_pos hok3]
        obtain ⟨hdt, -, -⟩ := destroy_buffer_trace_nonzero CB.1 r3.2.1 hhne hmne
        refine ⟨?_, ?_, ?_, ?_, ?_⟩
        · rw [hdt, List.countP_append, ha1, hq1, hbase.1]
          rfl
        · rw [hdt, List.countP_append, ha2, hq2, hbase.2.1]
          rfl
        · rw [hdt, List.countP_append, ha3, hq3, hbase.2.2]
          rfl
        · rw [hdt]
          refine List.mem_append_left _ (ham _ (hqm _ ?_))
          rw [hTtr]
          simp
        · rw [hdt, hC1h]
          simp
    · rw [if_pos hok2]
      obtain ⟨hdt, -, -⟩ := destroy_buffer_trace_nonzero CB.1 r2.1 hhne hmne
      refine ⟨?_, ?_, ?_, ?_, ?_⟩
      · rw [hdt, List.countP_append, hq1, hbase.1]
        rfl
      · rw [hdt, List.countP_append, hq2, hbase.2.1]
        rfl
      · rw [hdt, List.countP_append, hq3, hbase.2.2]
        rfl
      · rw [hdt]
        refine List.mem_append_left _ (hqm _ ?_)
        rw [hTtr]
        simp
      · rw [hdt, hC1h]
        simp
  · intro husage henv hmatch2 hlen hrec hmemle
    rw [hstep, henv]
    obtain ⟨j, hjmatch, hec⟩ := vulkano_create_buffer_ok
      (DriverEnv.allOk env.memoryTypeBits) gpu data.length
      VK_BUFFER_USAGE_TRANSFER_SRC_BIT VK_MEMORY_PROPERTY_HOST_VISIBLE_BIT
      st error herr rfl hmatch2 rfl rfl
    have hSvis2 : (gpu.memory_properties.memoryTypes.getD j default).propertyFlags &&&
        VK_MEMORY_PROPERTY_HOST_VISIBLE_BIT ≠ 0 := by
      rw [← hjmatch.2.2]
      decide
    unfold vulkano_copy_to_buffer_device_local
    simp only [hec, herr, ne_eq, reduceIte, eq_self_iff_true, not_true, if_false]
    rw [if_neg husage]
    by_cases hc4 : (gpu.memory_properties.memoryTypes.getD j default).propertyFlags &&&
        VK_MEMORY_PROPERTY_HOST_COHERENT_BIT = 0
    · simp only [vulkano_copy_to_buffer_go, lt_self_iff_false, if_false, hc4,
        hSvis2, ne_eq, not_false_iff, not_true, eq_self_iff_true, if_true, herr,
        host_visible_allOk_eval, acquire_allOk_eval, submit_allOk_eval, reduceIte,
        hrec, apply_recorded, vulkano_destroy_buffer, emit]
      have h01 : st.nextId + 1 ≠ 0 := by omega
      have h02 : st.nextId + 2 ≠ 0 := by omega
      have hnedm : buffer.memory ≠ st.nextId + 2 := by omega
      have hwlen : data.length ≤
          (memcpy_bytes (List.replicate data.length 0) data.bytes data.length).length := by
        rw [memcpy_bytes_length]
        simp [Nat.min_eq_left hlen]
      simp only [h01, h02, not_false_iff, if_true, Function.update_same,
        Function.update_noteq hnedm]
      refine ⟨trivial, ?_, ?_, ?_⟩
      · rw [memcpy_bytes_take _ _ _ hwlen, memcpy_bytes_take _ _ _ hlen]
      · rw [memcpy_bytes_drop _ _ _ hwlen]
      · rw [htrace]
        rfl
    · simp only [vulkano_copy_to_buffer_go, lt_self_iff_false, if_false, hc4,
        ne_eq, not_false_iff, not_true, eq_self_iff_true, if_true, herr,
        host_coherent_allOk_eval, acquire_allOk_eval, submit_allOk_eval, reduceIte,
        hrec, apply_recorded, vulkano_destroy_buffer, emit]
      have h01 : st.nextId + 1 ≠ 0 := by omega
      have h02 : st.nextId + 2 ≠ 0 := by omega
      have hnedm : buffer.memory ≠ st.nextId + 2 := by omega
      have hwlen : data.length ≤
          (memcpy_bytes (List.replicate data.length 0) data.bytes data.length).length := by
        rw [memcpy_bytes_length]
        simp [Nat.min_eq_left hlen]
      simp only [h01, h02, not_false_iff, if_true, Function.update_same,
        Function.update_noteq hnedm]
      refine ⟨trivial, ?_, ?_, ?_⟩
      · rw [memcpy_bytes_take _ _ _ hwlen, memcpy_bytes_take _ _ _ hlen]
      · rw [memcpy_bytes_drop _ _ _ hwlen]
      · rw [htrace]
        rfl

/-- Witness for `vulkano_copy_to_buffer_device_local_correct`: a two-byte copy
into a device-local-only destination, on a GPU whose table has a device-local
type 0 and a host-visible/coherent type 1, with every driver call succeeding:
exactly one staging buffer is created and the destination memory receives the
payload. -/
theorem vulkano_copy_to_buffer_device_local_correct_witness :
    (vulkano_copy_to_buffer (DriverEnv.allOk 2) ⟨⟨[⟨1⟩, ⟨6⟩]⟩⟩
        { handle := 3, memory := 4, usage := 2, memory_flags := 1, capacity := 2 }
        { length := 2, bytes := [7, 9] } st0 error_ok).1.trace.countP
        is_create_buffer = 1 ∧
    (vulkano_copy_to_buffer (DriverEnv.allOk 2) ⟨⟨[⟨1⟩, ⟨6⟩]⟩⟩
        { handle := 3, memory := 4, usage := 2, memory_flags := 1, capacity := 2 }
        { length := 2, bytes := [7, 9] } st0 error_ok).1.trace.countP
        is_destroy_buffer = 1 ∧
    ((vulkano_copy_to_buffer (DriverEnv.allOk 2) ⟨⟨[⟨1⟩, ⟨6⟩]⟩⟩
        { handle := 3, memory := 4, usage := 2, memory_flags := 1, capacity := 2 }
        { length := 2, bytes := [7, 9] } st0 error_ok).1.mem 4).take 2 = [7, 9] := by
  have h := vulkano_copy_to_buffer_device_local_correct (DriverEnv.allOk 2)
    ⟨⟨[⟨1⟩, ⟨6⟩]⟩⟩
    { handle := 3, memory := 4, usage := 2, memory_flags := 1, capacity := 2 }
    { length := 2, bytes := [7, 9] } st0 error_ok
    (by decide) (by decide) (by decide) (by decide) rfl
  have h2 := h.2.1 (by decide) rfl ⟨1, by decide⟩ rfl rfl
  have h3 := h.2.2 (by decide) rfl ⟨1, by decide⟩ (by decide) rfl (by decide)
  exact ⟨h2.1, h2.2.1, h3.2.1.trans (by decide)⟩

lemma host_coherent_map_fail_eval (env : DriverEnv) (buffer : vulkano_buffer)
    (data : vulkano_data) (st : DriverSt) (error : vulkano_error)
    (hmap : env.mapMemoryResult = .VK_ERROR_OUT_OF_HOST_MEMORY) :
    vulkano_copy_to_buffer_host_coherent env buffer data st error =
      (emit st (.vkMapMemory buffer.memory),
       vulkano_out_of_memory .VK_ERROR_OUT_OF_HOST_MEMORY) := by
  unfold vulkano_copy_to_buffer_host_coherent
  simp [hmap]

lemma host_visible_map_fail_eval (env : DriverEnv) (buffer : vulkano_buffer)
    (data : vulkano_data) (st : DriverSt) (error : vulkano_error)
    (hmap : env.mapMemoryResult = .VK_ERROR_OUT_OF_HOST_MEMORY) :
    vulkano_copy_to_buffer_host_visible env buffer data st error =
      (emit st (.vkMapMemory buffer.memory),
       vulkano_out_of_memory .VK_ERROR_OUT_OF_HOST_MEMORY) := by
  unfold vulkano_copy_to_buffer_host_visible
  simp [hmap]

/-- C2 (amended): error propagation in `vulkano.h` is enforced at call sites,
not on entry.  Within the device-local copy chain, the error record is checked
after each step: when the copy into the staging buffer fails (here the map
call reports out-of-host-memory), no command buffer is allocated and nothing
is submitted afterwards; the cleanup still destroys the staging buffer
exactly once, and the error reported is the one from the first failing
step. -/
theorem error_propagation_short_circuits
    (env : DriverEnv) (gpu : vulkano_gpu) (buffer : vulkano_buffer)
    (data : vulkano_data) (st : DriverSt) (error : vulkano_error)
    (herr : error.code = .VULKANO_ERROR_CODE_OK)
    (hcap : data.length ≤ buffer.capacity)
    (hcoh : buffer.memory_flags &&& VK_MEMORY_PROPERTY_HOST_COHERENT_BIT = 0)
    (hvis : buffer.memory_flags &&& VK_MEMORY_PROPERTY_HOST_VISIBLE_BIT = 0)
    (husage : buffer.usage &&& VK_BUFFER_USAGE_TRANSFER_DST_BIT ≠ 0)
    (htrace : st.trace = [])
    (hcreate : env.createBufferResult = .VK_SUCCESS)
    (hmatch : ∃ i, memory_type_matches gpu.memory_properties.memoryTypes
      env.memoryTypeBits VK_MEMORY_PROPERTY_HOST_VISIBLE_BIT i)
    (halloc : env.allocateMemoryResult = .VK_SUCCESS)
    (hbind : env.bindBufferMemoryResult = .VK_SUCCESS)
    (hmap : env.mapMemoryResult = .VK_ERROR_OUT_OF_HOST_MEMORY) :
    (vulkano_copy_to_buffer env gpu buffer data st error).2 =
      vulkano_out_of_memory .VK_ERROR_OUT_OF_HOST_MEMORY ∧
    (vulkano_copy_to_buffer env gpu buffer data st error).1.trace.countP
      is_queue_submit = 0 ∧
    (vulkano_copy_to_buffer env gpu buffer data st error).1.trace.countP
      is_allocate_command_buffers = 0 ∧
    (vulkano_copy_to_buffer env gpu buffer data st error).1.trace.countP
      is_destroy_buffer = 1 := by
  have hnotlt : ¬ (buffer.capacity < data.length) := Nat.not_lt.mpr hcap
  have hstep : vulkano_copy_to_buffer env gpu buffer data st error =
      vulkano_copy_to_buffer_device_local (vulkano_copy_to_buffer_go env gpu 1)
        env gpu buffer data st error := by
    unfold vulkano_copy_to_buffer
    simp [vulkano_copy_to_buffer_go, hnotlt, hcoh, hvis]
  rw [hstep]
  unfold vulkano_copy_to_buffer_device_local
  rw [if_neg husage]
  obtain ⟨j, hjmatch, hec⟩ := vulkano_create_buffer_ok env gpu data.length
    VK_BUFFER_USAGE_TRANSFER_SRC_BIT VK_MEMORY_PROPERTY_HOST_VISIBLE_BIT
    st error herr hcreate hmatch halloc hbind
  have hSvis2 : (gpu.memory_properties.memoryTypes.getD j default).propertyFlags &&&
      VK_MEMORY_PROPERTY_HOST_VISIBLE_BIT ≠ 0 := by
    rw [← hjmatch.2.2]
    decide
  have h01 : st.nextId + 1 ≠ 0 := by omega
  have h02 : st.nextId + 2 ≠ 0 := by omega
  simp only [hec, herr, ne_eq, reduceIte, eq_self_iff_true, not_true, if_false]
  by_cases hc4 : (gpu.memory_properties.memoryTypes.getD j default).propertyFlags &&&
      VK_MEMORY_PROPERTY_HOST_COHERENT_BIT = 0
  · simp only [vulkano_copy_to_buffer_go, lt_self_iff_false, if_false, hc4,
      hSvis2, ne_eq, not_false_iff, not_true, eq_self_iff_true, if_true,
      host_visible_map_fail_eval env _ _ _ _ hmap, vulkano_out_of_memory,
      reduceIte, vulkano_destroy_buffer, emit, h01, h02]
    refine ⟨rfl, ?_, ?_, ?_⟩ <;> (rw [htrace]; rfl)
  · simp only [vulkano_copy_to_buffer_go, lt_self_iff_false, if_false, hc4,
      ne_eq, not_false_iff, not_true, eq_self_iff_true, if_true,
      host_coherent_map_fail_eval env _ _ _ _ hmap, vulkano_out_of_memory,
      reduceIte, vulkano_destroy_buffer, emit, h01, h02]
    refine ⟨rfl, ?_, ?_, ?_⟩ <;> (rw [htrace]; rfl)

/-- Witness for `error_propagation_short_circuits` on a concrete device-local
copy whose staging map fails. -/
theorem error_propagation_short_circuits_witness :
    (vulkano_copy_to_buffer env_map_fail ⟨⟨[⟨1⟩, ⟨6⟩]⟩⟩
        { handle := 3, memory := 4, usage := 2, memory_flags := 1, capacity := 2 }
        { length := 2, bytes := [7, 9] } st0 error_ok).2 =
      vulkano_out_of_memory .VK_ERROR_OUT_OF_HOST_MEMORY ∧
    (vulkano_copy_to_buffer env_map_fail ⟨⟨[⟨1⟩, ⟨6⟩]⟩⟩
        { handle := 3, memory := 4, usage := 2, memory_flags := 1, capacity := 2 }
        { length := 2, bytes := [7, 9] } st0 error_ok).1.trace.countP
      is_queue_submit = 0 ∧
    (vulkano_copy_to_buffer env_map_fail ⟨⟨[⟨1⟩, ⟨6⟩]⟩⟩
        { handle := 3, memory := 4, usage := 2, memory_flags := 1, capacity := 2 }
        { length := 2, bytes := [7, 9] } st0 error_ok).1.trace.countP
      is_allocate_command_buffers = 0 ∧
    (vulkano_copy_to_buffer env_map_fail ⟨⟨[⟨1⟩, ⟨6⟩]⟩⟩
        { handle := 3, memory := 4, usage := 2, memory_flags := 1, capacity := 2 }
        { length := 2, bytes := [7, 9] } st0 error_ok).1.trace.countP
      is_destroy_buffer = 1 :=
  error_propagation_short_circuits env_map_fail ⟨⟨[⟨1⟩, ⟨6⟩]⟩⟩
    { handle := 3, memory := 4, usage := 2, memory_flags := 1, capacity := 2 }
    { length := 2, bytes := [7, 9] } st0 error_ok
    (by decide) (by decide) (by decide) (by decide) (by decide) rfl rfl
    ⟨1, by decide⟩ rfl rfl rfl

/-- C5: an `image_count` outside `[minImageCount, maxImageCount]` makes
`vulkano_configure_swapchain` fail with the swapchain-image-count error code
(`SWAPCHAIN_CONFIGURATION_FAILED`, the spec's `InvalidSwapchainImageCount`),
the requested count is not stored, and the only driver call made is the
surface-capabilities query — no driver object is created. -/
theorem vulkano_configure_swapchain_rejects_image_count
    (env : SwapchainConfigEnv) (vk : VulkanoSwapchainConfig)
    (image_count render_pass_index : Nat) (error : vulkano_error)
    (hcaps : env.capabilitiesResult = .VK_SUCCESS)
    (hrpi : render_pass_index < vk.render_pass_count)
    (hrange : image_count < env.capabilities.minImageCount ∨
      env.capabilities.maxImageCount < image_count) :
    (vulkano_configure_swapchain env vk image_count render_pass_index
        error).2.1.code = .VULKANO_ERROR_CODE_SWAPCHAIN_CONFIGURATION_FAILED ∧
    (vulkano_configure_swapchain env vk image_count render_pass_index
        error).1.swapchain_image_count = vk.swapchain_image_count ∧
    (vulkano_configure_swapchain env vk image_count render_pass_index
        error).2.2.countP is_driver_object_creation = 0 := by
  unfold vulkano_configure_swapchain
  rw [if_neg (by simp [hcaps]), if_neg (Nat.not_le.mpr hrpi), if_pos hrange]
  exact ⟨rfl, rfl, rfl⟩

/-- Witness for `vulkano_configure_swapchain_rejects_image_count`: requesting
5 images against a surface allowing `[2, 4]`. -/
theorem vulkano_configure_swapchain_rejects_image_count_witness :
    (vulkano_configure_swapchain ⟨.VK_SUCCESS, ⟨2, 4⟩⟩ ⟨1, false, none, 0⟩
        5 0 error_ok).2.1.code =
      .VULKANO_ERROR_CODE_SWAPCHAIN_CONFIGURATION_FAILED ∧
    (vulkano_configure_swapchain ⟨.VK_SUCCESS, ⟨2, 4⟩⟩ ⟨1, false, none, 0⟩
        5 0 error_ok).1.swapchain_image_count = 0 ∧
    (vulkano_configure_swapchain ⟨.VK_SUCCESS, ⟨2, 4⟩⟩ ⟨1, false, none, 0⟩
        5 0 error_ok).2.2.countP is_driver_object_creation = 0 :=
  vulkano_configure_swapchain_rejects_image_count ⟨.VK_SUCCESS, ⟨2, 4⟩⟩
    ⟨1, false, none, 0⟩ 5 0 error_ok rfl (by decide) (by decide)

/-- C6: because `score_surface_format` combines its preference bits into a
zero-initialized score with `&=`, every format scores 0 and the default
comparator returns 0 on every pair — in particular it never ranks the
preferred sRGB-nonlinear/BGRA8-sRGB format above any other, contradicting the
intended preference the spec describes. -/
theorem default_surface_format_compare_always_zero
    (fmt1 fmt2 : VkSurfaceFormatKHR) :
    score_surface_format fmt1 = 0 ∧ default_surface_format_compare fmt1 fmt2 = 0 := by
  have hz : ∀ f : VkSurfaceFormatKHR, score_surface_format f = 0 := by
    intro f
    unfold score_surface_format
    split_ifs <;> rfl
  refine ⟨hz fmt1, ?_⟩
  unfold default_surface_format_compare
  rw [hz fmt1, hz fmt2]
  rfl

/-- C9 counterexample: the merge is not duplicate-free.  Merging the list
`["a", "a"]` with the empty list keeps both copies — the first list is copied
verbatim and no search is ever consulted on this input (the second list is
empty, so the result is the same for every search outcome) — so the name
`"a"` appears twice in the result, contradicting the claim that no name
appears more than once. -/
theorem combine_string_arrays_unique_counterexample :
    (combine_string_arrays_unique true (fun _ => false) ["a", "a"] []
      error_ok).1.count "a" = 2 := by
  decide

/-- C9 (amended): whatever outcomes the address-dependent search produces,
the merge keeps the first list verbatim (its internal duplicates included,
since it is copied before the in-place sort) as the prefix of the result,
followed in order by a subsequence of the second list (each entry appended
unless the search reported it present — all of it when the first list is
null); consequently every name of the first list survives with its full
multiplicity and no name gains copies beyond those in the two inputs.  No
string-content deduplication, within one list or across the two, is
guaranteed by the code. -/
theorem combine_string_arrays_unique_amended (hit : String → Bool)
    (a1 a2 : List String) (error : vulkano_error) :
    (combine_string_arrays_unique true hit a1 a2 error).1 =
      a1 ++ a2.filter (fun s => a1.isEmpty || !(hit s)) ∧
    (combine_string_arrays_unique true hit a1 a2 error).2 = error ∧
    (combine_string_arrays_unique true hit a1 a2 error).1.take a1.length = a1 ∧
    ((combine_string_arrays_unique true hit a1 a2 error).1.drop
      a1.length).Sublist a2 ∧
    ∀ s : String,
      a1.count s ≤ (combine_string_arrays_unique true hit a1 a2 error).1.count s ∧
      (combine_string_arrays_unique true hit a1 a2 error).1.count s ≤
        a1.count s + a2.count s := by
  have hmain : (combine_string_arrays_unique true hit a1 a2 error).1 =
      a1 ++ a2.filter (fun s => a1.isEmpty || !(hit s)) ∧
      (combine_string_arrays_unique true hit a1 a2 error).2 = error := by
    unfold combine_string_arrays_unique
    by_cases h0 : a1.length + a2.length = 0
    · have ha1 : a1 = [] := List.eq_nil_of_length_eq_zero (by omega)
      have ha2 : a2 = [] := List.eq_nil_of_length_eq_zero (by omega)
      subst ha1
      subst ha2
      simp
    · rw [if_neg h0]
      simp
  refine ⟨hmain.1, hmain.2, ?_, ?_, ?_⟩
  · rw [hmain.1, List.take_left]
  · rw [hmain.1, List.drop_left]
    exact List.filter_sublist a2
  · intro s
    rw [hmain.1, List.count_append]
    constructor
    · omega
    · have := (@List.filter_sublist String
        (fun s => a1.isEmpty || !(hit s)) a2).count_le s
      omega

/-- C7: with `VULKANO_CONCURRENT_FRAMES = 3` and frame number 2, acquisition
addresses slot 2 but the matching submit addresses slot 0:
`vulkano_submit_frame` hard-codes `% 2` (src/vulkano.h:2027) while
`vulkano_begin_frame` uses `% VULKANO_CONCURRENT_FRAMES`
(src/vulkano.h:1910), so for any configured ring size other than 2 the two
halves of a frame address different slots. -/
theorem begin_submit_slot_mismatch :
    DriverCall.vkWaitForFencesSlot 2 ∈
      (vulkano_begin_frame RenderEnv.allOk 3
        { frame_count := 2, frame_complete := [true, true, true], trace := [] }
        error_ok).1.trace ∧
    DriverCall.vkQueueSubmitFrame 0 ∈
      (vulkano_submit_frame RenderEnv.allOk
        { frame_count := 2, frame_complete := [true, true, true], trace := [] }
        error_ok).1.trace ∧
    DriverCall.vkQueueSubmitFrame 2 ∉
      (vulkano_submit_frame RenderEnv.allOk
        { frame_count := 2, frame_complete := [true, true, true], trace := [] }
        error_ok).1.trace := by
  decide

lemma getD_replicate_true (k i : Nat) (h : i < k) :
    (List.replicate k true).getD i false = true := by
  induction k generalizing i with
  | zero => omega
  | succ k ih =>
    cases i with
    | zero => rfl
    | succ i =>
      rw [List.replicate_succ]
      exact ih i (by omega)

lemma vulkano_create_rendering_state_loop_ok (env : RenderEnv)
    (halloc : env.allocateCommandBuffersResult = .VK_SUCCESS)
    (hsem : env.createSemaphoreResult = .VK_SUCCESS)
    (hfence : env.createFenceResult = .VK_SUCCESS) :
    ∀ (k : Nat) (st : vulkano_rendering_state) (error : vulkano_error),
      (vulkano_create_rendering_state_loop env k st error).1.frame_complete =
        st.frame_complete ++ List.replicate k true ∧
      (vulkano_create_rendering_state_loop env k st error).1.frame_count =
        st.frame_count ∧
      (vulkano_create_rendering_state_loop env k st error).2 = error := by
  intro k
  induction k with
  | zero => intro st error; simp [vulkano_create_rendering_state_loop]
  | succ k ih =>
    intro st error
    unfold vulkano_create_rendering_state_loop
    simp only [halloc, hsem, hfence, ne_eq, not_true, if_false, reduceIte,
      eq_self_iff_true]
    refine ⟨?_, ?_, ?_⟩
    · rw [(ih _ error).1]
      simp [List.replicate_succ]
    · rw [(ih _ error).2.1]
    · exact (ih _ error).2.2

/-- C10: `vulkano_create_rendering_state` creates every per-slot
frame-complete fence in the signaled state
(`VK_FENCE_CREATE_SIGNALED_BIT`, src/vulkano.h:1763), so on the freshly
created rendering state the very first `vulkano_begin_frame` on any slot —
at any frame number, before any `vulkano_submit_frame` has occurred — finds
the fence already signaled: its fence wait succeeds immediately (regardless
of what waiting on an unsignaled fence would return) and the whole
acquisition succeeds. -/
theorem rendering_state_fences_start_signaled (env : RenderEnv)
    (concurrent_frames : Nat) (error : vulkano_error)
    (halloc : env.allocateCommandBuffersResult = .VK_SUCCESS)
    (hsem : env.createSemaphoreResult = .VK_SUCCESS)
    (hfence : env.createFenceResult = .VK_SUCCESS) :
    (vulkano_create_rendering_state env concurrent_frames error).1.frame_complete =
      List.replicate concurrent_frames true ∧
    (vulkano_create_rendering_state env concurrent_frames error).2 = error ∧
    (∀ (env2 : RenderEnv) (n : Nat),
      env2.resetFencesResult = .VK_SUCCESS →
      env2.resetCommandBufferResult = .VK_SUCCESS →
      env2.beginCommandBufferResult = .VK_SUCCESS →
      env2.acquireResults = [.VK_SUCCESS] →
      error.code = .VULKANO_ERROR_CODE_OK →
      0 < concurrent_frames →
      (vulkano_begin_frame env2 concurrent_frames
        { vulkano_create_rendering_state env concurrent_frames error |>.1 with
          frame_count := n } error).2 = error) := by
  obtain ⟨h1, h2, h3⟩ := vulkano_create_rendering_state_loop_ok env halloc hsem hfence
    concurrent_frames { frame_count := 0, frame_complete := [], trace := [] } error
  simp only [List.nil_append] at h1
  have h1b : (vulkano_create_rendering_state env concurrent_frames
      error).1.frame_complete = List.replicate concurrent_frames true := h1
  have h3b : (vulkano_create_rendering_state env concurrent_frames
      error).2 = error := h3
  refine ⟨h1b, h3b, ?_⟩
  intro env2 n hreset hresetcmd hbegin hacq herr hpos
  have hsig : ((vulkano_create_rendering_state env concurrent_frames
      error).1.frame_complete).getD (n % concurrent_frames) false = true := by
    rw [h1b]
    exact getD_replicate_true concurrent_frames (n % concurrent_frames)
      (Nat.mod_lt n hpos)
  unfold vulkano_begin_frame
  simp only [hsig, if_true, reduceIte, IS_VULKAN_MEMORY_ERROR, hreset, hresetcmd,
    hacq, ne_eq, not_true, if_false, eq_self_iff_true, Bool.or_self,
    not_false_iff]
  unfold vulkano_begin_frame_acquire
  simp [hbegin, IS_VULKAN_MEMORY_ERROR]

/-- Witness for `rendering_state_fences_start_signaled`: ring size 2, every
creation call succeeding; the first `vulkano_begin_frame` succeeds although
waiting on an unsignaled fence would time out (`RenderEnv.allOk` injects
`VK_TIMEOUT` for that case). -/
theorem rendering_state_fences_start_signaled_witness :
    (vulkano_create_rendering_state RenderEnv.allOk 2 error_ok).1.frame_complete =
      List.replicate 2 true ∧
    (vulkano_create_rendering_state RenderEnv.allOk 2 error_ok).2 = error_ok ∧
    (vulkano_begin_frame RenderEnv.allOk 2
      { vulkano_create_rendering_state RenderEnv.allOk 2 error_ok |>.1 with
        frame_count := 0 } error_ok).2 = error_ok := by
  have h := rendering_state_fences_start_signaled RenderEnv.allOk 2 error_ok
    rfl rfl rfl
  exact ⟨h.1, h.2.1, h.2.2 RenderEnv.allOk 0 rfl rfl rfl rfl (by decide) (by decide)⟩

/-- C8 counterexample: `vulkano_destroy_swapchain` performs no device-idle
wait at all.  On a swapchain with one image view, one framebuffer and a live
present-chain handle, the very first driver call it makes is already a
destruction, so no device-idle wait precedes the first destruction. -/
theorem vulkano_destroy_swapchain_no_idle_counterexample :
    (vulkano_destroy_swapchain
      { handle := 1, image_count := 1, image_views := some [2],
        framebuffers := some [3] }).2 =
      [.vkDestroyImageView 2, .vkDestroyFramebuffer 3,
       .vkDestroySwapchainKHR 1] ∧
    ¬ idle_precedes_destruction (vulkano_destroy_swapchain
      { handle := 1, image_count := 1, image_views := some [2],
        framebuffers := some [3] }).2 := by
  have htr : (vulkano_destroy_swapchain
      { handle := 1, image_count := 1, image_views := some [2],
        framebuffers := some [3] }).2 =
      [.vkDestroyImageView 2, .vkDestroyFramebuffer 3,
       .vkDestroySwapchainKHR 1] := by decide
  refine ⟨htr, ?_⟩
  rw [htr]
  intro hcontra
  obtain ⟨j, hj, hj0, -⟩ := hcontra 0 (by decide) (by decide)
  omega

lemma destroy_handle_calls_no_idle (mk : Nat → DriverCall)
    (hmk : ∀ h, mk h ≠ DriverCall.vkDeviceWaitIdle) (handles : List Nat) :
    DriverCall.vkDeviceWaitIdle ∉ destroy_handle_calls mk handles := by
  intro hmem
  obtain ⟨a, -, ha⟩ := List.mem_filterMap.mp hmem
  by_cases h0 : a = 0
  · simp [h0] at ha
  · rw [if_neg h0] at ha
    exact hmk a (by simpa using ha)

/-- C8 (amended): `vulkano_destroy_swapchain` itself never waits for the
device to go idle; the device-idle wait lives in `vulkano_destroy`
(src/vulkano.h:730), whose very first driver call it is whenever a device
exists — so in a full teardown every destruction, including the swapchain
teardown it triggers, is preceded by the device-idle wait. -/
theorem vulkano_destroy_waits_idle_before_destruction (vk : vulkano_ctx)
    (hdev : vk.device ≠ 0) :
    (vulkano_destroy vk).head? = some DriverCall.vkDeviceWaitIdle ∧
    idle_precedes_destruction (vulkano_destroy vk) ∧
    ∀ sw : vulkano_swapchain_state,
      DriverCall.vkDeviceWaitIdle ∉ (vulkano_destroy_swapchain sw).2 := by
  have hform : ∃ rest, vulkano_destroy vk = DriverCall.vkDeviceWaitIdle :: rest := by
    refine ⟨(vulkano_destroy_swapchain vk.swapchain).2 ++
      vulkano_destroy_rendering_state_calls vk.rendering_image_ready
        vk.rendering_rendering_complete vk.rendering_frame_complete ++
      vulkano_destroy_resources_calls vk.resources ++
      (if vk.device ≠ 0 then [DriverCall.vkDestroyDevice] else []) ++
      (if vk.surface ≠ 0 then [DriverCall.vkDestroySurfaceKHR] else []) ++
      (if vk.vk_instance ≠ 0 then [DriverCall.vkDestroyInstance] else []), ?_⟩
    unfold vulkano_destroy
    rw [if_pos hdev]
    simp [List.append_assoc]
  obtain ⟨rest, hrest⟩ := hform
  refine ⟨by rw [hrest]; rfl, ?_, ?_⟩
  · rw [hrest]
    intro i hi hdest
    cases i with
    | zero => simp [is_destruction] at hdest
    | succ i =>
      exact ⟨0, by simp, by omega, rfl⟩
  · intro sw
    unfold vulkano_destroy_swapchain
    intro hmem
    simp only [List.mem_append] at hmem
    rcases hmem with (hv | hf) | hc
    · rcases hsw : sw.image_views with _ | vs
      · rw [hsw] at hv
        simp at hv
      · rw [hsw] at hv
        exact destroy_handle_calls_no_idle _ (by intro h; simp) vs hv
    · rcases hsw : sw.framebuffers with _ | fbs
      · rw [hsw] at hf
        simp at hf
      · rw [hsw] at hf
        exact destroy_handle_calls_no_idle _ (by intro h; simp) fbs hf
    · by_cases h0 : sw.handle ≠ 0
      · rw [if_pos h0] at hc
        simp at hc
      · rw [if_neg h0] at hc
        simp at hc

/-- Witness for `vulkano_destroy_waits_idle_before_destruction` on a concrete
context with a live device. -/
theorem vulkano_destroy_waits_idle_before_destruction_witness :
    (vulkano_destroy ctx0).head? = some DriverCall.vkDeviceWaitIdle ∧
    idle_precedes_destruction (vulkano_destroy ctx0) ∧
    ∀ sw : vulkano_swapchain_state,
      DriverCall.vkDeviceWaitIdle ∉ (vulkano_destroy_swapchain sw).2 :=
  vulkano_destroy_waits_idle_before_destruction ctx0 (by decide)
